import Mathlib

/-!
# Verification of the support-ticket enrichment pipeline

Shallow embedding of the Python ETL pipeline (sentiment / resolution /
understanding enrichment, numeric projection, and Neptune graph export)
together with proofs of the specified properties.

Conventions of the embedding:
* pandas cell values are modelled by `Value`; `Value.null` stands for both
  Python `None` and float NaN (pandas treats both as "na");
* numeric cells are modelled by exact rationals (the pipeline only ever
  assigns the literals 0, 1 and 0.5 and takes one arithmetic mean);
* a pandas row is an association list from column name to value, a
  DataFrame is a column list plus a row list (rows indexed positionally,
  matching the default RangeIndex of the loaded tables);
* calls to the external Bedrock classifier are modelled by a function
  `Nat → Except String (Option String)` from the global call counter to the
  outcome of one call of the per-stage analysis function
  (`Except.error e` = the call raised exception `e`; `.ok none` = the
  analysis function swallowed a transport error and returned `None`;
  `.ok (some s)` = it returned the label string `s`);
* `time.sleep` and classifier invocations are recorded in an event trace;
  console prints and pickle checkpoint writes are pure observability /
  I/O and are not part of the modelled state.
-/

/-- A pandas cell value.  `null` models both `None` and NaN. -/
inductive Value where
  | null : Value
  | str (s : String) : Value
  | num (q : ℚ) : Value
  | bool (b : Bool) : Value
deriving DecidableEq, Repr

/-- `pd.isna` on a cell. -/
def Value.isna : Value → Bool
  | .null => true
  | _ => false

/-- A row: association list from column name to cell value
(first binding wins, as in a Python dict / pandas Series). -/
@[reducible] def Row : Type := List (String × Value)

instance : DecidableEq Row := inferInstanceAs (DecidableEq (List (String × Value)))

/-- Optional lookup of a column in a row (`Series.get` with no default). -/
def Row.get? (r : Row) (c : String) : Option Value :=
  List.lookup c r

/-- Lookup with default (`row.get(col, default)` in Python). -/
def Row.getD (r : Row) (c : String) (d : Value) : Value :=
  (r.get? c).getD d

/-- Lookup of a column that the frame is expected to carry
(`df.loc[idx, col]`); an absent column reads as na. -/
def Row.getV (r : Row) (c : String) : Value :=
  r.getD c .null

/-- Set a column of a row, replacing in place when the key exists and
appending otherwise (Python dict assignment semantics). -/
def Row.set : Row → String → Value → Row
  | [], c, v => [(c, v)]
  | (k, w) :: r, c, v => if k = c then (c, v) :: r else (k, w) :: Row.set r c v

/-- A DataFrame: ordered column list plus rows. -/
structure DataFrame where
  cols : List String
  rows : List Row
deriving DecidableEq

/-- `col in df.columns`. -/
def DataFrame.hasCol (df : DataFrame) (c : String) : Bool :=
  df.cols.contains c

/-- Column assignment `df[c] = f(row)`: appends `c` to the column list when
absent and writes the computed value into every row. -/
def DataFrame.setColWith (df : DataFrame) (c : String) (f : Row → Value) : DataFrame :=
  { cols := if df.hasCol c then df.cols else df.cols ++ [c]
    rows := df.rows.map fun r => r.set c (f r) }

/-- Substring containment, `pat in s` on Python strings. -/
def strContains (s pat : String) : Bool :=
  decide (List.IsInfix pat.data s.data)

/-- `str.lower()` (ASCII range; the keyword tests of the pipeline only
involve ASCII letters).  Defined on the character list so that it reduces
definitionally. -/
def strLower (s : String) : String :=
  String.mk (s.data.map Char.toLower)

/-- The keyword interpretation inside `analyze_sentiment_with_nova`
(src/01_sentiment_analysis.py, lines 104-113): `'positive' in result`
is checked first, then `'negative' in result`, defaulting to
`'negative'`. -/
def interpretSentiment (result : String) : String :=
  if strContains result "positive" then "positive"
  else if strContains result "negative" then "negative"
  else "negative"

/-- The keyword interpretation inside `analyze_resolution_with_nova`
(src/03_identify_resolution.py, lines 81-91): the response is lowercased,
then `'resolved' in result and 'unresolved' not in result` selects
`'resolved'`, anything else yields `'unresolved'`. -/
def interpretResolution (result : String) : String :=
  let lowered := strLower result
  if strContains lowered "resolved" && !strContains lowered "unresolved" then "resolved"
  else "unresolved"

/-- The keyword interpretation inside `evaluate_understanding_with_nova`
(src/04_evaluate_understanding.py): the response is lowercased, then
`'understood' in result and 'misunderstood' not in result` selects
`'understood'`, anything else yields `'misunderstood'`. -/
def interpretUnderstanding (result : String) : String :=
  let lowered := strLower result
  if strContains lowered "understood" && !strContains lowered "misunderstood" then "understood"
  else "misunderstood"

example : interpretSentiment "positive" = "positive" := by decide
example : interpretSentiment "it is negative and positive" = "positive" := by decide
example : interpretResolution "Unresolved" = "unresolved" := by decide
example : interpretResolution "Resolved." = "resolved" := by decide
example : interpretUnderstanding "misunderstood" = "misunderstood" := by decide

/-- `analyze_sentiment_with_nova` (src/01_sentiment_analysis.py, lines
67-117), given the outcome of the embedded `bedrock_client.converse` call
(`.ok text` = the extracted response text, `.error` = any exception inside
the `try` block): on success the keyword interpretation is applied, on
failure the exception is swallowed and `None` is returned. -/
def analyze_sentiment_with_nova (converse : Except String String) : Option String :=
  match converse with
  | .ok text => some (interpretSentiment text)
  | .error _ => none

/-- `analyze_resolution_with_nova` (src/03_identify_resolution.py):
interpretation of the response on success, `None` on a swallowed error. -/
def analyze_resolution_with_nova (converse : Except String String) : Option String :=
  match converse with
  | .ok text => some (interpretResolution text)
  | .error _ => none

/-- `evaluate_understanding_with_nova` (src/04_evaluate_understanding.py):
interpretation of the response on success, `None` on a swallowed error. -/
def evaluate_understanding_with_nova (converse : Except String String) : Option String :=
  match converse with
  | .ok text => some (interpretUnderstanding text)
  | .error _ => none

/-- Observable events of an enrichment stage: one classifier call, or one
`time.sleep(secs)`. -/
inductive Ev where
  | call : Ev
  | sleep (secs : ℕ) : Ev
deriving DecidableEq, Repr

/-- The per-row retry loop shared by the three batch processors
(src/01_sentiment_analysis.py lines 184-204 and its copies in scripts 03
and 04):

```
retry_count = 0; sentiment = None
while sentiment is None and retry_count < max_retries:
    try:
        sentiment = analyze_..._with_nova(comment, client)
    except Exception:
        retry_count += 1
        if retry_count < max_retries: time.sleep(2)
```

`classify n` is the outcome of the `n`-th classifier call of the stage
(`ci` is the call counter threaded through the stage).  The loop is not
structurally terminating (a call that keeps returning `None` without
raising loops forever), so it takes explicit `fuel`; `none` means the fuel
ran out before the loop condition became false.  The result carries the
final `sentiment`, the next call counter and the event trace. -/
def retryLoop (classify : ℕ → Except String (Option String)) (maxRetries : ℕ) :
    ℕ → ℕ → ℕ → Option String → Option (Option String × ℕ × List Ev)
  | 0, ci, rc, s =>
      if s.isNone && decide (rc < maxRetries) then none else some (s, ci, [])
  | fuel + 1, ci, rc, s =>
      if s.isNone && decide (rc < maxRetries) then
        match classify ci with
        | .ok res =>
            (retryLoop classify maxRetries fuel (ci + 1) rc res).map
              fun x => (x.1, x.2.1, Ev.call :: x.2.2)
        | .error _ =>
            let evs := if rc + 1 < maxRetries then [Ev.call, Ev.sleep 2] else [Ev.call]
            (retryLoop classify maxRetries fuel (ci + 1) (rc + 1) none).map
              fun x => (x.1, x.2.1, evs ++ x.2.2)
      else some (s, ci, [])

/-- Per-stage parameters distinguishing the three near-identical batch
processors: the text column, the label column, and the sentinel written
for an empty/missing transcript. -/
structure StageParams where
  commentCol : String
  labelCol : String
  emptyLabel : String

/-- Processing of a single to-be-labelled row (body of the inner `for idx
in batch_indices` loop): an empty/missing comment short-circuits to the
empty-text sentinel without any classifier call; otherwise the retry loop
runs and the row's label becomes the returned string if truthy, else
`'unknown'`. -/
def processRow (p : StageParams) (classify : ℕ → Except String (Option String))
    (maxRetries fuel ci : ℕ) (r : Row) : Option (Row × ℕ × List Ev) :=
  let comment := r.getV p.commentCol
  if comment.isna || comment = .str "" then
    some (r.set p.labelCol (.str p.emptyLabel), ci, [])
  else
    (retryLoop classify maxRetries fuel ci 0 none).map fun x =>
      let lbl := match x.1 with
        | some s => if s = "" then "unknown" else s
        | none => "unknown"
      (r.set p.labelCol (.str lbl), x.2.1, x.2.2)

/-- The row iteration of a batch processor.  The Python code first filters
`comments_to_process = result_df[result_df[label].isna()].index` and then
walks those indices in order (the `batch_size` grouping only controls
intermediate checkpoint writes, which are I/O); the net effect on the
table is this in-order traversal that rewrites exactly the na-labelled
rows and leaves the rest untouched. -/
def enrichRows (p : StageParams) (classify : ℕ → Except String (Option String))
    (maxRetries fuel : ℕ) : List Row → ℕ → Option (List Row × ℕ × List Ev)
  | [], ci => some ([], ci, [])
  | r :: rs, ci =>
    if (r.getV p.labelCol).isna then
      match processRow p classify maxRetries fuel ci r with
      | none => none
      | some (r1, ci1, tr1) =>
        match enrichRows p classify maxRetries fuel rs ci1 with
        | none => none
        | some (rs1, ci2, tr2) => some (r1 :: rs1, ci2, tr1 ++ tr2)
    else
      match enrichRows p classify maxRetries fuel rs ci with
      | none => none
      | some (rs1, ci2, tr2) => some (r :: rs1, ci2, tr2)

/-- Common shape of `process_sentiment_batch` / `process_resolution_batch`
/ `process_understanding_batch` up to their stage-specific epilogues:

* missing comment column → report and return the frame unchanged;
* add the label column (all `None`) when absent;
* nothing na-labelled → "Nothing to process", return early;
* otherwise run the row iteration.

The third component of the result records whether the main processing path
ran (`false` on the two early returns), which the resolution and
understanding stages need because their numeric-projection epilogue is
skipped by the early returns. -/
def processBatchCore (p : StageParams) (classify : ℕ → Except String (Option String))
    (maxRetries fuel : ℕ) (df : DataFrame) : Option (DataFrame × List Ev × Bool) :=
  if !df.hasCol p.commentCol then some (df, [], false)
  else
    let df1 := if df.hasCol p.labelCol then df else df.setColWith p.labelCol fun _ => .null
    if df1.rows.all (fun r => !(r.getV p.labelCol).isna) then some (df1, [], false)
    else
      match enrichRows p classify maxRetries fuel df1.rows 0 with
      | none => none
      | some (rows1, _, tr) => some (⟨df1.cols, rows1⟩, tr, true)

/-- Stage parameters of `process_sentiment_batch`: text column
`comment_history_table_string` (the `__main__` invocation), label column
`sentiment`, empty-text sentinel `'neutral'`. -/
def sentimentParams : StageParams :=
  ⟨"comment_history_table_string", "sentiment", "neutral"⟩

/-- Stage parameters of `process_resolution_batch`: label column
`resolution_status`, empty-text sentinel `'unknown'`. -/
def resolutionParams : StageParams :=
  ⟨"comment_history_table_string", "resolution_status", "unknown"⟩

/-- Stage parameters of `process_understanding_batch`: label column
`understanding_status`, empty-text sentinel `'unknown'`. -/
def understandingParams : StageParams :=
  ⟨"comment_history_table_string", "understanding_status", "unknown"⟩

/-- `process_sentiment_batch` (src/01_sentiment_analysis.py, lines
119-230) with `max_retries = 3` (its default, used by `__main__`). -/
def process_sentiment_batch (classify : ℕ → Except String (Option String))
    (fuel : ℕ) (df : DataFrame) : Option (DataFrame × List Ev) :=
  (processBatchCore sentimentParams classify 3 fuel df).map fun x => (x.1, x.2.1)

/-- `result_df['resolution_status'].map({'resolved': 1, 'unresolved': 0,
'unknown': None})` pointwise: a pandas `Series.map` sends keys absent from
the dict (and `'unknown'`, whose dict value is `None`) to NaN. -/
def resolutionNumericMap (v : Value) : Value :=
  match v with
  | .str "resolved" => .num 1
  | .str "unresolved" => .num 0
  | _ => .null

/-- `process_resolution_batch` (src/03_identify_resolution.py, lines
93-212): the common batch body followed by the `resolution_numeric`
projection, which the two early returns skip. -/
def process_resolution_batch (classify : ℕ → Except String (Option String))
    (fuel : ℕ) (df : DataFrame) : Option (DataFrame × List Ev) :=
  (processBatchCore resolutionParams classify 3 fuel df).map fun x =>
    if x.2.2 then
      (x.1.setColWith "resolution_numeric"
        (fun r => resolutionNumericMap (r.getV "resolution_status")), x.2.1)
    else (x.1, x.2.1)

/-- `result_df['understanding_status'].map({'understood': 1,
'misunderstood': 0, 'unknown': None})` pointwise. -/
def understandingNumericMap (v : Value) : Value :=
  match v with
  | .str "understood" => .num 1
  | .str "misunderstood" => .num 0
  | _ => .null

/-- `Series.fillna(0)` pointwise. -/
def fillna0 (v : Value) : Value :=
  if v.isna then .num 0 else v

/-- `process_understanding_batch` (src/04_evaluate_understanding.py, lines
99-218): the common batch body, then the `understanding_numeric`
projection, then `fillna(0)` on that column ("treat unknown as
misunderstood"); the two early returns skip both epilogue steps. -/
def process_understanding_batch (classify : ℕ → Except String (Option String))
    (fuel : ℕ) (df : DataFrame) : Option (DataFrame × List Ev) :=
  (processBatchCore understandingParams classify 3 fuel df).map fun x =>
    if x.2.2 then
      let df2 := x.1.setColWith "understanding_numeric"
        fun r => understandingNumericMap (r.getV "understanding_status")
      (df2.setColWith "understanding_numeric"
        (fun r => fillna0 (r.getV "understanding_numeric")), x.2.1)
    else (x.1, x.2.1)

/-- Python `int()` truncation toward zero on an exact rational. -/
def ratTrunc (q : ℚ) : ℤ :=
  q.num.tdiv (q.den : ℤ)

/-- Python `int(value)` on a cell: truncates a number, maps a bool to 0/1,
parses a (decimal integer) string, and raises on `None`/NaN. -/
def pyInt : Value → Except String ℤ
  | .num q => .ok (ratTrunc q)
  | .bool b => .ok (if b then 1 else 0)
  | .str s =>
      match s.toInt? with
      | some n => .ok n
      | none => .error "invalid literal for int()"
  | .null => .error "cannot convert float NaN to integer"

/-- Left-to-right fallible map: the first failing element aborts the
whole traversal, as a raised exception aborts the Python loop. -/
def mapME (f : α → Except String β) : List α → Except String (List β)
  | [] => .ok []
  | a :: as =>
    match f a with
    | .error e => .error e
    | .ok b =>
      match mapME f as with
      | .error e => .error e
      | .ok bs => .ok (b :: bs)

/-- Fallible column assignment (used for `astype(int)`-backed columns):
the first failing cell aborts the whole operation, as the raised
`ValueError` aborts the Python script. -/
def DataFrame.setColWithE (df : DataFrame) (c : String) (f : Row → Except String Value) :
    Except String DataFrame :=
  match mapME (fun r =>
    match f r with
    | .error e => .error e
    | .ok v => .ok (r.set c v)) df.rows with
  | .error e => .error e
  | .ok rows =>
      .ok { cols := if df.hasCol c then df.cols else df.cols ++ [c], rows := rows }

/-- `result_df['sentiment'].map({'positive': 1, 'negative': 0,
'neutral': None, 'unknown': None})` pointwise: `'neutral'`/`'unknown'`
map to `None` (na) and any key absent from the dict maps to NaN. -/
def sentimentNumericMap (v : Value) : Value :=
  match v with
  | .str "positive" => .num 1
  | .str "negative" => .num 0
  | _ => .null

/-- `result_df['rating'].map({'good': 1, 'offered': 0})` pointwise:
any other value maps to NaN. -/
def ratingNumericMap (v : Value) : Value :=
  match v with
  | .str "good" => .num 1
  | .str "offered" => .num 0
  | _ => .null

/-- `lambda x: 1 if x == 'amazon_web_services' else 0` — total, no na
case (`custom_platform` of any other shape, na included, maps to 0). -/
def awsPlatformNumericMap (v : Value) : Value :=
  if v = .str "amazon_web_services" then .num 1 else .num 0

/-- `convert_to_numeric` (src/02_convert_to_numeric.py, lines 42-131):
each of the four source columns, when present, yields a new derived
column; an absent source column only produces a console warning.  The
`astype(int)` on `cloud_support_case_used` can raise, so the function is
fallible. -/
def convert_to_numeric (df : DataFrame) : Except String DataFrame := do
  let df1 :=
    if df.hasCol "sentiment" then
      df.setColWith "sentiment_numeric" fun r => sentimentNumericMap (r.getV "sentiment")
    else df
  let df2 :=
    if df1.hasCol "rating" then
      df1.setColWith "rating_numeric" fun r => ratingNumericMap (r.getV "rating")
    else df1
  let df3 ←
    if df2.hasCol "cloud_support_case_used" then
      df2.setColWithE "support_case_numeric" fun r => do
        let n ← pyInt (r.getV "cloud_support_case_used")
        return .num (n : ℚ)
    else pure df2
  let df4 :=
    if df3.hasCol "custom_platform" then
      df3.setColWith "aws_platform_numeric" fun r =>
        awsPlatformNumericMap (r.getV "custom_platform")
    else df3
  return df4

/-- The parts of the filesystem that `load_ticket_data` consults.
`pickle`/`csv`: `none` = the file does not exist; `some (.error e)` = it
exists but loading/parsing it raises `e`; `some (.ok t)` = it loads as
table `t`.  `pickleWriteOk` records whether the checkpoint write
(`df.to_pickle`) would succeed (its failure only warns). -/
structure FileSys where
  pickle : Option (Except String DataFrame)
  csv : Option (Except String DataFrame)
  pickleWriteOk : Bool

/-- Outcome of `load_ticket_data`. -/
inductive LoadResult where
  | ok (df : DataFrame) (wroteCheckpoint : Bool) : LoadResult
  | fileNotFound : LoadResult
  | parseError (e : String) : LoadResult
deriving DecidableEq

/-- `load_ticket_data` (src/01_sentiment_analysis.py, lines 15-65): prefer
the pickle checkpoint when it exists and deserializes (no checkpoint
write on that path); on a missing or failing pickle fall back to the CSV;
raise `FileNotFoundError` when the CSV does not exist; on a successful
parse attempt the checkpoint write (a failure of which only warns) and
return the table; re-raise the parse error after reporting it. -/
def load_ticket_data (fs : FileSys) : LoadResult :=
  match fs.pickle with
  | some (.ok df) => .ok df false
  | _ =>
    match fs.csv with
    | none => .fileNotFound
    | some (.error e) => .parseError e
    | some (.ok df) => .ok df fs.pickleWriteOk

/-- List map with the positional index (the `df.index` of a default
RangeIndex), defined by plain recursion so that its `get?` behaviour is
easy to reason about. -/
def mapWithIdx (f : ℕ → α → β) : ℕ → List α → List β
  | _, [] => []
  | i, a :: as => f i a :: mapWithIdx f (i + 1) as

/-- Index-dependent column assignment, e.g.
`df['~id'] = 'rating_' + df.index.astype(str)`. -/
def DataFrame.setColIdx (df : DataFrame) (c : String) (f : ℕ → Row → Value) : DataFrame :=
  { cols := if df.hasCol c then df.cols else df.cols ++ [c]
    rows := mapWithIdx (fun i r => r.set c (f i r)) 0 df.rows }

/-- Projection of a row onto a column list (`df[cols]` rowwise). -/
def selectRow (cs : List String) (r : Row) : Row :=
  cs.map fun c => (c, r.getV c)

/-- `df[cols]` with pandas' `KeyError` on any missing column. -/
def DataFrame.selectE (df : DataFrame) (cs : List String) : Except String DataFrame :=
  if cs.all df.hasCol then
    .ok { cols := cs, rows := df.rows.map (selectRow cs) }
  else .error "KeyError"

/-- The column reordering
`cols = front + [c for c in df.columns if c not in front]; df = df[cols]`
used after the `~id`/`~label` assignments (those columns are present by
construction at every use site, so this projection cannot raise). -/
def DataFrame.reorderFront (df : DataFrame) (front : List String) : DataFrame :=
  { cols := front ++ df.cols.filter fun c => !front.contains c
    rows := df.rows.map
      (selectRow (front ++ df.cols.filter fun c => !front.contains c)) }

/-- `drop_duplicates()` keeping the first occurrence of each row. -/
def dedupFirstAux : List Row → List Row → List Row
  | _, [] => []
  | seen, r :: rs =>
      if r ∈ seen then dedupFirstAux seen rs else r :: dedupFirstAux (r :: seen) rs

/-- `drop_duplicates()` on a row list. -/
def dedupFirst (rs : List Row) : List Row :=
  dedupFirstAux [] rs

/-- `'prefix_' + df[col]` pointwise on a string column: pandas propagates
na through string concatenation (the enrichment stages only ever store
strings or na in the status columns, so the non-string numeric/bool cases
do not arise and are mapped to na as well). -/
def strConcatV (pre : String) (v : Value) : Value :=
  match v with
  | .str s => .str (pre ++ s)
  | _ => .null

/-- `df[col] = df[col].astype(int)` when the column is present (the
"Handle boolean values" blocks of src/05_create_neptune_gremlin.py);
absent column = no-op, a non-coercible cell raises. -/
def DataFrame.astypeIntIfPresent (df : DataFrame) (c : String) : Except String DataFrame :=
  if df.hasCol c then
    df.setColWithE c fun r => do
      let n ← pyInt (r.getV c)
      return .num (n : ℚ)
  else pure df

/-- `df[col] = df[col].fillna(v)` when the column is present. -/
def DataFrame.fillnaIfPresent (df : DataFrame) (c : String) (v : Value) : DataFrame :=
  if df.hasCol c then
    df.setColWith c fun r => if (r.getV c).isna then v else r.getV c
  else df

/-- `df[tgt] = f(df[src])` with pandas' `KeyError` when `src` is
missing. -/
def DataFrame.setColFromColE (df : DataFrame) (tgt : String) (f : Value → Value)
    (src : String) : Except String DataFrame :=
  if df.hasCol src then .ok (df.setColWith tgt fun r => f (r.getV src))
  else .error ("KeyError: " ++ src)

/-- The seven tables produced by the direct Gremlin CSV exporter (the
`.to_csv` writes are file I/O; the tables are the modelled content). -/
structure GremlinOut where
  rating_vertices : DataFrame
  resolution_vertices : DataFrame
  understanding_vertices : DataFrame
  ticket_vertices : DataFrame
  resolution_rating_edges : DataFrame
  understanding_rating_edges : DataFrame
  ticket_rating_edges : DataFrame
deriving DecidableEq

/-- `convert_to_neptune_gremlin_csv` (src/05_create_neptune_gremlin.py,
lines 5-139), section by section in source order.  Every `df[...]` read of
a data-dependent column goes through the `KeyError`-raising helpers, so a
table without e.g. `resolution_effect` makes the function fail exactly
where the script raises. -/
def convert_to_neptune_gremlin_csv (df : DataFrame) : Except String GremlinOut := do
  -- rating vertices
  let rv1 := df.setColIdx "~id" fun i _ => .str ("rating_" ++ toString i)
  let rv2 := rv1.setColWith "~label" fun _ => .str "rating"
  let rv3 ← rv2.astypeIntIfPresent "cloud_support_case_used"
  let rv4 := rv3.fillnaIfPresent "custom_product" (.str "unknown")
  let rating_vertices := rv4.reorderFront ["~id", "~label"]
  -- resolution vertices
  let rsel ← df.selectE ["resolution_status", "resolution_numeric"]
  let rdd : DataFrame := { cols := rsel.cols, rows := dedupFirst rsel.rows }
  let rd1 := rdd.setColWith "~id" fun r => strConcatV "resolution_" (r.getV "resolution_status")
  let rd2 := rd1.setColWith "~label" fun _ => .str "resolution"
  let resolution_vertices := rd2.reorderFront ["~id", "~label"]
  -- understanding vertices
  let usel ← df.selectE ["understanding_status", "understanding_numeric"]
  let udd : DataFrame := { cols := usel.cols, rows := dedupFirst usel.rows }
  let ud1 := udd.setColWith "~id" fun r => strConcatV "understanding_" (r.getV "understanding_status")
  let ud2 := ud1.setColWith "~label" fun _ => .str "understanding"
  let understanding_vertices := ud2.reorderFront ["~id", "~label"]
  -- ticket vertices
  let tv1 ← df.astypeIntIfPresent "cloud_support_case_used"
  let tv2 := tv1.fillnaIfPresent "custom_product" (.str "unknown")
  let tv3 := tv2.setColIdx "~id" fun i _ => .str ("ticket_" ++ toString i)
  let tv4 := tv3.setColWith "~label" fun _ => .str "ticket"
  let ticket_vertices := tv4.reorderFront ["~id", "~label"]
  -- resolution → rating edges
  let re1 ← df.astypeIntIfPresent "cloud_support_case_used"
  let re2 := re1.setColIdx "~id" fun i _ => .str ("edge_res_rating_" ++ toString i)
  let re3 ← re2.setColFromColE "~from" (strConcatV "resolution_") "resolution_status"
  let re4 := re3.setColIdx "~to" fun i _ => .str ("rating_" ++ toString i)
  let re5 := re4.setColWith "~label" fun _ => .str "AFFECTS"
  let re6 ← re5.setColFromColE "weight" id "resolution_effect"
  let resolution_rating_edges ← re6.selectE ["~id", "~from", "~to", "~label", "weight"]
  -- understanding → rating edges
  let ue1 := df.setColIdx "~id" fun i _ => .str ("edge_und_rating_" ++ toString i)
  let ue2 ← ue1.setColFromColE "~from" (strConcatV "understanding_") "understanding_status"
  let ue3 := ue2.setColIdx "~to" fun i _ => .str ("rating_" ++ toString i)
  let ue4 := ue3.setColWith "~label" fun _ => .str "INFLUENCES"
  let understanding_rating_edges ← ue4.selectE ["~id", "~from", "~to", "~label"]
  -- ticket → rating edges
  let te1 := df.setColIdx "~id" fun i _ => .str ("edge_ticket_rating_" ++ toString i)
  let te2 := te1.setColIdx "~from" fun i _ => .str ("ticket_" ++ toString i)
  let te3 := te2.setColIdx "~to" fun i _ => .str ("rating_" ++ toString i)
  let te4 := te3.setColWith "~label" fun _ => .str "HAS_RATING"
  let ticket_rating_edges ← te4.selectE ["~id", "~from", "~to", "~label"]
  return { rating_vertices := rating_vertices
           resolution_vertices := resolution_vertices
           understanding_vertices := understanding_vertices
           ticket_vertices := ticket_vertices
           resolution_rating_edges := resolution_rating_edges
           understanding_rating_edges := understanding_rating_edges
           ticket_rating_edges := ticket_rating_edges }

/-- Python `str(value)` as the bulk exporter uses it on ticket ids (the
pipeline only produces string or integer ids there; the float/na reprs
are approximated). -/
def pyStr : Value → String
  | .str s => s
  | .num q => if q.den = 1 then toString q.num else toString q
  | .bool b => if b then "True" else "False"
  | .null => "nan"

/-- The columns excluded from the "additional properties" loop of a bulk
ticket vertex (src/05_create_neptune_gremlin_bulk.py, lines 75-79). -/
def bulkExcluded : List String :=
  ["ticket_id", "sentiment_numeric", "rating_numeric",
   "resolution_numeric", "understanding_numeric",
   "support_case_numeric", "aws_platform_numeric",
   "resolution_effect"]

/-- The six numeric-projection columns the bulk ticket vertex coerces with
`int(row.get(col, 0))`. -/
def bulkNumericCols : List String :=
  ["sentiment_numeric", "rating_numeric", "resolution_numeric",
   "understanding_numeric", "support_case_numeric", "aws_platform_numeric"]

/-- One ticket vertex of `create_neptune_bulk_vertices`
(src/05_create_neptune_gremlin_bulk.py, lines 57-83): the six
`int(row.get(col, 0))` coercions (`0` only when the column is absent from
the frame; a present na cell raises), then the pass over `df.columns`
adding every non-excluded, non-na property (dict assignment, so a
domain column equal to a key already present overwrites it in place). -/
def bulkTicketVertex (cols : List String) (idx : ℕ) (r : Row) : Except String Row := do
  let tid := pyStr (r.getD "ticket_id" (.str ("ticket_" ++ toString idx)))
  let sv ← pyInt (r.getD "sentiment_numeric" (.num 0))
  let gv ← pyInt (r.getD "rating_numeric" (.num 0))
  let rv ← pyInt (r.getD "resolution_numeric" (.num 0))
  let uv ← pyInt (r.getD "understanding_numeric" (.num 0))
  let cv ← pyInt (r.getD "support_case_numeric" (.num 0))
  let av ← pyInt (r.getD "aws_platform_numeric" (.num 0))
  let base : Row :=
    [("~id", .str ("ticket:" ++ tid)), ("~label", .str "ticket"),
     ("ticket_id", .str tid), ("sentiment", .num (sv : ℚ)),
     ("rating", .num (gv : ℚ)), ("resolution", .num (rv : ℚ)),
     ("understanding", .num (uv : ℚ)), ("support_case", .num (cv : ℚ)),
     ("aws_platform", .num (av : ℚ))]
  return cols.foldl
    (fun acc c =>
      if bulkExcluded.contains c then acc
      else if (r.getV c).isna then acc
      else acc.set c (r.getV c))
    base

/-- The fixed `factor:resolution` vertex. -/
def factorResolutionVertex : Row :=
  [("~id", .str "factor:resolution"), ("~label", .str "factor"),
   ("name", .str "Resolution Status"),
   ("description", .str "Whether the customer issue was resolved or not")]

/-- The fixed `factor:rating` vertex. -/
def factorRatingVertex : Row :=
  [("~id", .str "factor:rating"), ("~label", .str "factor"),
   ("name", .str "Customer Rating"),
   ("description", .str "Rating provided by the customer")]

/-- Ticket-vertex traversal of `create_neptune_bulk_vertices`. -/
def bulkVerticesAux (cols : List String) : ℕ → List Row → Except String (List Row)
  | _, [] => .ok []
  | i, r :: rs => do
    let v ← bulkTicketVertex cols i r
    let vs ← bulkVerticesAux cols (i + 1) rs
    return v :: vs

/-- `create_neptune_bulk_vertices`
(src/05_create_neptune_gremlin_bulk.py, lines 41-103). -/
def create_neptune_bulk_vertices (df : DataFrame) : Except String (List Row) := do
  let ts ← bulkVerticesAux df.cols 0 df.rows
  return ts ++ [factorResolutionVertex, factorRatingVertex]

/-- The two `has_factor` edges of one ticket row
(src/05_create_neptune_gremlin_bulk.py, lines 122-143).  `uuid` is the
stream of `uuid.uuid4()` draws; edges of row `idx` consume draws `2*idx`
and `2*idx + 1`. -/
def bulkRowEdges (uuid : ℕ → String) (idx : ℕ) (r : Row) : Except String (List Row) := do
  let tid := pyStr (r.getD "ticket_id" (.str ("ticket_" ++ toString idx)))
  let rv ← pyInt (r.getD "resolution_numeric" (.num 0))
  let gv ← pyInt (r.getD "rating_numeric" (.num 0))
  return (
    [[("~id", .str ("e" ++ uuid (2 * idx))),
      ("~from", .str ("ticket:" ++ tid)), ("~to", .str "factor:resolution"),
      ("~label", .str "has_factor"), ("value", .num (rv : ℚ))],
     [("~id", .str ("e" ++ uuid (2 * idx + 1))),
      ("~from", .str ("ticket:" ++ tid)), ("~to", .str "factor:rating"),
      ("~label", .str "has_factor"), ("value", .num (gv : ℚ))]] )

/-- Per-ticket edge traversal of `create_neptune_bulk_edges`. -/
def bulkEdgesAux (uuid : ℕ → String) : ℕ → List Row → Except String (List Row)
  | _, [] => .ok []
  | i, r :: rs => do
    let es ← bulkRowEdges uuid i r
    let rest ← bulkEdgesAux uuid (i + 1) rs
    return es ++ rest

/-- `Series.mean()`: the arithmetic mean of the non-na cells of a column,
na when no such cell exists. -/
def colMean (df : DataFrame) (c : String) : Value :=
  let vals := df.rows.filterMap fun r =>
    match r.getV c with
    | .num q => some q
    | _ => none
  match vals with
  | [] => .null
  | _ => .num (vals.sum / (vals.length : ℚ))

/-- `create_neptune_bulk_edges`
(src/05_create_neptune_gremlin_bulk.py, lines 105-161): two `has_factor`
edges per ticket with freshly drawn UUID ids, then — when the
`resolution_effect` column exists — a single `causes` edge whose
`effect_strength` is the column mean (`0` when the series is empty). -/
def create_neptune_bulk_edges (uuid : ℕ → String) (df : DataFrame) :
    Except String (List Row) := do
  let es ← bulkEdgesAux uuid 0 df.rows
  if df.hasCol "resolution_effect" then do
    let causalEffect :=
      if df.rows.isEmpty then Value.num 0 else colMean df "resolution_effect"
    let causalEdge : Row :=
      [("~id", .str "e_causal_resolution_rating"),
       ("~from", .str "factor:resolution"), ("~to", .str "factor:rating"),
       ("~label", .str "causes"), ("effect_strength", causalEffect),
       ("description", .str "Causal effect of resolution status on customer rating")]
    return es ++ [causalEdge]
  else
    return es

/-- The `__main__` pipeline fragment of the bulk exporter
(src/05_create_neptune_gremlin_bulk.py, lines 302-321): when the loaded
table lacks `resolution_effect`, warn the operator and install the
placeholder column with constant value 0.5, then build vertices and
edges (the `write_neptune_bulk_files` serialization is file I/O).  The
boolean of the result records whether the warning was printed. -/
def bulk_pipeline (uuid : ℕ → String) (df : DataFrame) :
    Except String (List Row × List Row × Bool) := do
  let dfw :=
    if df.hasCol "resolution_effect" then (df, false)
    else (df.setColWith "resolution_effect" fun _ => .num (1 / 2), true)
  let vs ← create_neptune_bulk_vertices dfw.1
  let es ← create_neptune_bulk_edges uuid dfw.1
  return (vs, es, dfw.2)

/-! ## Basic lemmas about rows and frames -/

theorem Row.getV_set_self (r : Row) (c : String) (v : Value) :
    (r.set c v).getV c = v := by
  induction r with
  | nil => simp [Row.set, Row.getV, Row.getD, Row.get?, List.lookup]
  | cons p r ih =>
    obtain ⟨k, w⟩ := p
    by_cases h : k = c
    · simp [Row.set, h, Row.getV, Row.getD, Row.get?, List.lookup]
    · have hb : (c == k) = false := by simp [Ne.symm h]
      simp only [Row.set, if_neg h]
      simpa [Row.getV, Row.getD, Row.get?, List.lookup, hb] using ih

theorem Row.getV_set_ne (r : Row) {c d : String} (v : Value) (h : d ≠ c) :
    (r.set c v).getV d = r.getV d := by
  have hb : (d == c) = false := by simp [h]
  induction r with
  | nil => simp [Row.set, Row.getV, Row.getD, Row.get?, List.lookup, hb]
  | cons p r ih =>
    obtain ⟨k, w⟩ := p
    by_cases hk : k = c
    · subst hk
      simp [Row.set, Row.getV, Row.getD, Row.get?, List.lookup, hb]
    · simp only [Row.set, if_neg hk]
      by_cases hd : (d == k) = true
      · simp [Row.getV, Row.getD, Row.get?, List.lookup, hd]
      · have hd2 : (d == k) = false := by simpa using hd
        simpa [Row.getV, Row.getD, Row.get?, List.lookup, hd2] using ih

/-! ## The retry loop and per-row processing -/

theorem retryLoop_exit (classify : ℕ → Except String (Option String))
    (mr fuel ci rc : ℕ) (s : Option String)
    (h : (s.isNone && decide (rc < mr)) = false) :
    retryLoop classify mr fuel ci rc s = some (s, ci, []) := by
  cases fuel <;> simp [retryLoop, h]

theorem retryLoop_allFail (classify : ℕ → Except String (Option String))
    (hfail : ∀ n, ∃ e, classify n = Except.error e)
    (fuel : ℕ) (hf : 3 ≤ fuel) (ci : ℕ) :
    retryLoop classify 3 fuel ci 0 none =
      some (none, ci + 3, [Ev.call, Ev.sleep 2, Ev.call, Ev.sleep 2, Ev.call]) := by
  obtain ⟨k, rfl⟩ : ∃ k, fuel = k + 3 := ⟨fuel - 3, by omega⟩
  obtain ⟨e1, h1⟩ := hfail ci
  obtain ⟨e2, h2⟩ := hfail (ci + 1)
  obtain ⟨e3, h3⟩ := hfail (ci + 1 + 1)
  have last : retryLoop classify 3 k (ci + 1 + 1 + 1) 3 none =
      some (none, ci + 1 + 1 + 1, []) :=
    retryLoop_exit classify 3 k (ci + 1 + 1 + 1) 3 none (by simp)
  show retryLoop classify 3 (k + 1 + 1 + 1) ci 0 none = _
  simp [retryLoop, h1, h2, h3, last]

theorem processRow_empty (p : StageParams) (classify : ℕ → Except String (Option String))
    (mr fuel ci : ℕ) (r : Row)
    (h : (r.getV p.commentCol).isna = true ∨ r.getV p.commentCol = .str "") :
    processRow p classify mr fuel ci r =
      some (r.set p.labelCol (.str p.emptyLabel), ci, []) := by
  rcases h with h | h <;> simp [processRow, h]

theorem processRow_allFail (p : StageParams) (classify : ℕ → Except String (Option String))
    (hfail : ∀ n, ∃ e, classify n = Except.error e)
    (fuel : ℕ) (hf : 3 ≤ fuel) (ci : ℕ) (r : Row)
    (hna : (r.getV p.commentCol).isna = false)
    (hne : r.getV p.commentCol ≠ .str "") :
    processRow p classify 3 fuel ci r =
      some (r.set p.labelCol (.str "unknown"), ci + 3,
        [Ev.call, Ev.sleep 2, Ev.call, Ev.sleep 2, Ev.call]) := by
  simp [processRow, hna, hne, retryLoop_allFail classify hfail fuel hf ci]

theorem enrichRows_allEmpty (p : StageParams) (classify : ℕ → Except String (Option String))
    (mr fuel : ℕ) :
    ∀ (rows : List Row) (ci : ℕ),
      (∀ r ∈ rows, ((r.getV p.commentCol).isna = true ∨ r.getV p.commentCol = .str "") ∧
        (r.getV p.labelCol).isna = true) →
      enrichRows p classify mr fuel rows ci =
        some (rows.map fun r => r.set p.labelCol (.str p.emptyLabel), ci, []) := by
  intro rows
  induction rows with
  | nil => intro ci _; simp [enrichRows]
  | cons r rs ih =>
    intro ci h
    obtain ⟨h1, h2⟩ := h r (by simp)
    have hrest := fun r hr => h r (List.mem_cons_of_mem _ hr)
    simp [enrichRows, h2, processRow_empty p classify mr fuel ci r h1, ih ci hrest]

theorem enrichRows_allFail (p : StageParams) (classify : ℕ → Except String (Option String))
    (hfail : ∀ n, ∃ e, classify n = Except.error e)
    (fuel : ℕ) (hf : 3 ≤ fuel) :
    ∀ (rows : List Row) (ci : ℕ),
      (∀ r ∈ rows, (r.getV p.commentCol).isna = false ∧ r.getV p.commentCol ≠ .str "" ∧
        (r.getV p.labelCol).isna = true) →
      enrichRows p classify 3 fuel rows ci =
        some (rows.map fun r => r.set p.labelCol (.str "unknown"),
          ci + 3 * rows.length,
          (rows.map fun _ => [Ev.call, Ev.sleep 2, Ev.call, Ev.sleep 2, Ev.call]).flatten) := by
  intro rows
  induction rows with
  | nil => intro ci _; simp [enrichRows]
  | cons r rs ih =>
    intro ci h
    obtain ⟨h1, h2, h3⟩ := h r (by simp)
    have hrest := fun r hr => h r (List.mem_cons_of_mem _ hr)
    simp [enrichRows, h3, processRow_allFail p classify hfail fuel hf ci r h1 h2,
      ih (ci + 3) hrest]
    omega

theorem retryLoop_okNone (fuel : ℕ) :
    ∀ (ci rc : ℕ), rc < 3 →
      retryLoop (fun _ => Except.ok none) 3 fuel ci rc none = none := by
  induction fuel with
  | zero => intro ci rc h; simp [retryLoop, h]
  | succ f ih => intro ci rc h; simp [retryLoop, h, ih (ci + 1) rc h]

theorem enrichRows_okNone_bad (p : StageParams) (fuel : ℕ) :
    ∀ (rows : List Row) (ci : ℕ),
      (∃ r ∈ rows, (r.getV p.labelCol).isna = true ∧
        (r.getV p.commentCol).isna = false ∧ r.getV p.commentCol ≠ .str "") →
      enrichRows p (fun _ => Except.ok none) 3 fuel rows ci = none := by
  intro rows
  induction rows with
  | nil => intro ci h; simp at h
  | cons a as ih =>
    intro ci h
    obtain ⟨r, hmem, hprops⟩ := h
    rcases List.mem_cons.mp hmem with rfl | hmem2
    · obtain ⟨hna, hcna, hcne⟩ := hprops
      have hrow : processRow p (fun _ => Except.ok none) 3 fuel ci r = none := by
        simp [processRow, hcna, hcne, retryLoop_okNone fuel ci 0 (by decide)]
      simp [enrichRows, hna, hrow]
    · by_cases hla : (a.getV p.labelCol).isna = true
      · cases hp : processRow p (fun _ => Except.ok none) 3 fuel ci a with
        | none => simp [enrichRows, hla, hp]
        | some x =>
          obtain ⟨a1, ci1, tr1⟩ := x
          simp [enrichRows, hla, hp, ih ci1 ⟨r, hmem2, hprops⟩]
      · have hla2 : (a.getV p.labelCol).isna = false := by simpa using hla
        simp [enrichRows, hla2, ih ci ⟨r, hmem2, hprops⟩]

/-- C1 (code bug): `analyze_sentiment_with_nova` traps every exception of
the Bedrock call and returns `None` (src/01_sentiment_analysis.py, lines
115-117), so a classifier whose every call fails surfaces to the batch
loop as a `None` result with no exception — modelled as `.ok none`.  The
`except` branch of the retry loop (lines 191-198) is then unreachable:
`retry_count` never increments, `time.sleep(2)` never runs, and no
`'unknown'` is ever recorded; instead `while sentiment is None and
retry_count < max_retries` spins forever.  In the fuel model: the loop
returns `none` (fuel exhausted) for every fuel, and on any table with at
least one unlabelled, non-empty-transcript row the whole batch diverges
rather than completing.  The claimed three-attempts-then-`'unknown'`
behaviour would require the call to raise through, which the source
prevents. -/
theorem retry_swallowed_error_diverges
    (fuel ci : ℕ) (df : DataFrame)
    (hc : df.hasCol "comment_history_table_string" = true)
    (hl : df.hasCol "sentiment" = true)
    (hbad : ∃ r ∈ df.rows, (r.getV "sentiment").isna = true ∧
      (r.getV "comment_history_table_string").isna = false ∧
      r.getV "comment_history_table_string" ≠ .str "") :
    retryLoop (fun _ => Except.ok none) 3 fuel ci 0 none = none ∧
    process_sentiment_batch (fun _ => Except.ok none) fuel df = none := by
  refine ⟨retryLoop_okNone fuel ci 0 (by decide), ?_⟩
  obtain ⟨cols, rows⟩ := df
  have hcm : "comment_history_table_string" ∈ cols := by
    simpa [DataFrame.hasCol] using hc
  have hlm : "sentiment" ∈ cols := by
    simpa [DataFrame.hasCol] using hl
  obtain ⟨r, hmem, hna, hcna, hcne⟩ := hbad
  have hallP : ¬ ∀ x ∈ rows, (x.getV "sentiment").isna = false := by
    intro hx
    have := hx r hmem
    rw [hna] at this
    exact absurd this (by simp)
  have henr := enrichRows_okNone_bad sentimentParams fuel rows 0
    ⟨r, hmem, by simpa [sentimentParams] using And.intro hna (And.intro hcna hcne)⟩
  simp only [sentimentParams] at henr
  simp [process_sentiment_batch, processBatchCore, sentimentParams, DataFrame.hasCol,
    hcm, hlm, hallP, henr]

/-- Witness for C1's divergence theorem at a concrete one-row table whose
transcript is non-empty and whose label is unset, with fuel 5. -/
theorem retry_swallowed_error_diverges_witness :
    retryLoop (fun _ => Except.ok none) 3 5 0 0 none = none ∧
    process_sentiment_batch (fun _ => Except.ok none) 5
      ⟨["comment_history_table_string", "sentiment"],
       [[("comment_history_table_string", .str "all broken"), ("sentiment", .null)]]⟩ =
      none :=
  retry_swallowed_error_diverges 5 0
    ⟨["comment_history_table_string", "sentiment"],
     [[("comment_history_table_string", .str "all broken"), ("sentiment", .null)]]⟩
    (by decide) (by decide)
    ⟨[("comment_history_table_string", .str "all broken"), ("sentiment", .null)],
     by decide, by decide, by decide, by decide⟩

theorem processBatchCore_allEmpty (p : StageParams)
    (classify : ℕ → Except String (Option String)) (mr fuel : ℕ) (df : DataFrame)
    (hc : df.hasCol p.commentCol = true) (hl : df.hasCol p.labelCol = true)
    (hrows : ∀ r ∈ df.rows,
      ((r.getV p.commentCol).isna = true ∨ r.getV p.commentCol = .str "") ∧
      (r.getV p.labelCol).isna = true) :
    (df.rows = [] ∧ processBatchCore p classify mr fuel df = some (df, [], false)) ∨
    processBatchCore p classify mr fuel df =
      some (⟨df.cols, df.rows.map fun r => r.set p.labelCol (.str p.emptyLabel)⟩,
        [], true) := by
  obtain ⟨cols, rows⟩ := df
  have hcm : p.commentCol ∈ cols := by simpa [DataFrame.hasCol] using hc
  have hlm : p.labelCol ∈ cols := by simpa [DataFrame.hasCol] using hl
  cases rows with
  | nil =>
    left
    exact ⟨rfl, by simp [processBatchCore, DataFrame.hasCol, hcm, hlm]⟩
  | cons a as =>
    right
    have h3 := (hrows a (by simp)).2
    have hall : ¬ ∀ x ∈ a :: as, (x.getV p.labelCol).isna = false := by
      intro hx
      have hxa := hx a (by simp)
      rw [h3] at hxa
      exact absurd hxa (by simp)
    have henrich := enrichRows_allEmpty p classify mr fuel (a :: as) 0 hrows
    simp [processBatchCore, DataFrame.hasCol, hcm, hlm, hall, henrich, h3]

theorem enrichRows_get?_empty (p : StageParams)
    (classify : ℕ → Except String (Option String)) (mr fuel : ℕ) :
    ∀ (rows : List Row) (ci : ℕ) (rows1 : List Row) (ci2 : ℕ) (tr : List Ev),
      enrichRows p classify mr fuel rows ci = some (rows1, ci2, tr) →
      ∀ (i : ℕ) (r : Row), rows.get? i = some r →
        ((r.getV p.commentCol).isna = true ∨ r.getV p.commentCol = .str "") →
        (r.getV p.labelCol).isna = true →
        rows1.get? i = some (r.set p.labelCol (.str p.emptyLabel)) := by
  intro rows
  induction rows with
  | nil => intro ci rows1 ci2 tr h i r hri he hn; simp at hri
  | cons a as ih =>
    intro ci rows1 ci2 tr h i r hri he hn
    by_cases hla : (a.getV p.labelCol).isna = true
    · simp only [enrichRows, hla, if_true] at h
      cases hp : processRow p classify mr fuel ci a with
      | none => rw [hp] at h; simp at h
      | some x =>
        obtain ⟨a1, ci1, tr1⟩ := x
        simp only [hp] at h
        cases he2 : enrichRows p classify mr fuel as ci1 with
        | none => rw [he2] at h; simp at h
        | some y =>
          obtain ⟨as1, ci2b, tr2⟩ := y
          simp only [he2] at h
          simp only [Option.some.injEq, Prod.mk.injEq] at h
          obtain ⟨h1, h2, h3⟩ := h
          subst h1
          cases i with
          | zero =>
            obtain rfl : a = r := by simpa using hri
            have hpe := (processRow_empty p classify mr fuel ci a he).symm.trans hp
            simp only [Option.some.injEq, Prod.mk.injEq] at hpe
            obtain ⟨ha1, -, -⟩ := hpe
            simp only [List.get?]
            rw [← ha1]
          | succ j =>
            simp only [List.get?] at hri ⊢
            exact ih ci1 as1 ci2b tr2 he2 j r hri he hn
    · have hla2 : (a.getV p.labelCol).isna = false := by simpa using hla
      simp only [enrichRows, hla2, Bool.false_eq_true, if_false] at h
      cases he2 : enrichRows p classify mr fuel as ci with
      | none => rw [he2] at h; simp at h
      | some y =>
        obtain ⟨as1, ci2b, tr2⟩ := y
        simp only [he2] at h
        simp only [Option.some.injEq, Prod.mk.injEq] at h
        obtain ⟨h1, h2, h3⟩ := h
        subst h1
        cases i with
        | zero =>
          obtain rfl : a = r := by simpa using hri
          exact absurd hn (by simp [hla2])
        | succ j =>
          simp only [List.get?] at hri ⊢
          exact ih ci as1 ci2b tr2 he2 j r hri he hn

theorem processBatchCore_get?_empty (p : StageParams)
    (classify : ℕ → Except String (Option String)) (mr fuel : ℕ) (df : DataFrame)
    (hc : df.hasCol p.commentCol = true) (hl : df.hasCol p.labelCol = true)
    {out : DataFrame} {tr : List Ev} {b : Bool}
    (hok : processBatchCore p classify mr fuel df = some (out, tr, b))
    (i : ℕ) {r : Row} (hri : df.rows.get? i = some r)
    (he : (r.getV p.commentCol).isna = true ∨ r.getV p.commentCol = .str "")
    (hn : (r.getV p.labelCol).isna = true) :
    out.rows.get? i = some (r.set p.labelCol (.str p.emptyLabel)) := by
  obtain ⟨cols, rows⟩ := df
  have hcm : p.commentCol ∈ cols := by simpa [DataFrame.hasCol] using hc
  have hlm : p.labelCol ∈ cols := by simpa [DataFrame.hasCol] using hl
  have hmem : r ∈ rows := List.get?_mem hri
  have hallP : ¬ ∀ x ∈ rows, (x.getV p.labelCol).isna = false := by
    intro hx
    have := hx r hmem
    rw [hn] at this
    exact absurd this (by simp)
  cases he2 : enrichRows p classify mr fuel rows 0 with
  | none =>
    simp [processBatchCore, DataFrame.hasCol, hcm, hlm, hallP, he2] at hok
  | some y =>
    obtain ⟨rows1, ciq, tr2⟩ := y
    simp [processBatchCore, DataFrame.hasCol, hcm, hlm, hallP, he2] at hok
    obtain ⟨h1, h2, h3⟩ := hok
    rw [← h1]
    exact enrichRows_get?_empty p classify mr fuel rows 0 rows1 ciq tr2 he2 i r hri he hn

/-- C6: in any table (mixed transcripts included), every row whose
transcript is empty or missing and whose label is still unset triggers no
classifier call — its per-row processing returns immediately with an
empty event trace and an unchanged call counter — and receives the
stage's empty-text sentinel in the stage's output: `'neutral'` for the
sentiment stage and `'unknown'` for the resolution and understanding
stages. -/
theorem empty_text_short_circuit
    (classify : ℕ → Except String (Option String)) (fuel : ℕ) (df : DataFrame)
    (hc : df.hasCol "comment_history_table_string" = true)
    (hs : df.hasCol "sentiment" = true)
    (hr : df.hasCol "resolution_status" = true)
    (hu : df.hasCol "understanding_status" = true) :
    (∀ out tr, process_sentiment_batch classify fuel df = some (out, tr) →
      ∀ i r, df.rows.get? i = some r →
        ((r.getV "comment_history_table_string").isna = true ∨
          r.getV "comment_history_table_string" = .str "") →
        (r.getV "sentiment").isna = true →
        (∀ ci, processRow sentimentParams classify 3 fuel ci r =
          some (r.set "sentiment" (.str "neutral"), ci, [])) ∧
        ∃ r1, out.rows.get? i = some r1 ∧ r1.getV "sentiment" = .str "neutral") ∧
    (∀ out tr, process_resolution_batch classify fuel df = some (out, tr) →
      ∀ i r, df.rows.get? i = some r →
        ((r.getV "comment_history_table_string").isna = true ∨
          r.getV "comment_history_table_string" = .str "") →
        (r.getV "resolution_status").isna = true →
        (∀ ci, processRow resolutionParams classify 3 fuel ci r =
          some (r.set "resolution_status" (.str "unknown"), ci, [])) ∧
        ∃ r1, out.rows.get? i = some r1 ∧
          r1.getV "resolution_status" = .str "unknown") ∧
    (∀ out tr, process_understanding_batch classify fuel df = some (out, tr) →
      ∀ i r, df.rows.get? i = some r →
        ((r.getV "comment_history_table_string").isna = true ∨
          r.getV "comment_history_table_string" = .str "") →
        (r.getV "understanding_status").isna = true →
        (∀ ci, processRow understandingParams classify 3 fuel ci r =
          some (r.set "understanding_status" (.str "unknown"), ci, [])) ∧
        ∃ r1, out.rows.get? i = some r1 ∧
          r1.getV "understanding_status" = .str "unknown") := by
  refine ⟨?_, ?_, ?_⟩
  · intro out tr hok i r hri he hn
    refine ⟨fun ci => by
      simpa [sentimentParams] using
        processRow_empty sentimentParams classify 3 fuel ci r he, ?_⟩
    cases hcore : processBatchCore sentimentParams classify 3 fuel df with
    | none =>
      rw [process_sentiment_batch, hcore] at hok
      simp at hok
    | some x =>
      obtain ⟨df2, tr2, b2⟩ := x
      rw [process_sentiment_batch, hcore] at hok
      simp only [Option.map_some', Option.some.injEq, Prod.mk.injEq] at hok
      obtain ⟨h1, h2⟩ := hok
      subst h1
      have hg := processBatchCore_get?_empty sentimentParams classify 3 fuel df
        hc hs hcore i hri he hn
      exact ⟨r.set "sentiment" (.str "neutral"),
        by simpa [sentimentParams] using hg, Row.getV_set_self r _ _⟩
  · intro out tr hok i r hri he hn
    refine ⟨fun ci => by
      simpa [resolutionParams] using
        processRow_empty resolutionParams classify 3 fuel ci r he, ?_⟩
    cases hcore : processBatchCore resolutionParams classify 3 fuel df with
    | none =>
      rw [process_resolution_batch, hcore] at hok
      simp at hok
    | some x =>
      obtain ⟨df2, tr2, b2⟩ := x
      rw [process_resolution_batch, hcore] at hok
      simp only [Option.map_some', Option.some.injEq, Prod.mk.injEq] at hok
      have hg := processBatchCore_get?_empty resolutionParams classify 3 fuel df
        hc hr hcore i hri he hn
      cases b2 with
      | false =>
        simp at hok
        obtain ⟨h1, h2⟩ := hok
        subst h1
        exact ⟨r.set "resolution_status" (.str "unknown"),
          by simpa [resolutionParams] using hg, Row.getV_set_self r _ _⟩
      | true =>
        simp at hok
        obtain ⟨h1, h2⟩ := hok
        subst h1
        refine ⟨(r.set "resolution_status" (.str "unknown")).set "resolution_numeric"
          (resolutionNumericMap ((r.set "resolution_status"
            (.str "unknown")).getV "resolution_status")), ?_, ?_⟩
        · simp only [DataFrame.setColWith, List.get?_map]
          rw [show df2.rows.get? i =
            some (r.set "resolution_status" (.str "unknown")) from
            by simpa [resolutionParams] using hg]
          rfl
        · rw [Row.getV_set_ne _ _ (by decide)]
          exact Row.getV_set_self r _ _
  · intro out tr hok i r hri he hn
    refine ⟨fun ci => by
      simpa [understandingParams] using
        processRow_empty understandingParams classify 3 fuel ci r he, ?_⟩
    cases hcore : processBatchCore understandingParams classify 3 fuel df with
    | none =>
      rw [process_understanding_batch, hcore] at hok
      simp at hok
    | some x =>
      obtain ⟨df2, tr2, b2⟩ := x
      rw [process_understanding_batch, hcore] at hok
      simp only [Option.map_some', Option.some.injEq, Prod.mk.injEq] at hok
      have hg := processBatchCore_get?_empty understandingParams classify 3 fuel df
        hc hu hcore i hri he hn
      cases b2 with
      | false =>
        simp at hok
        obtain ⟨h1, h2⟩ := hok
        subst h1
        exact ⟨r.set "understanding_status" (.str "unknown"),
          by simpa [understandingParams] using hg, Row.getV_set_self r _ _⟩
      | true =>
        simp at hok
        obtain ⟨h1, h2⟩ := hok
        subst h1
        set r0 := r.set "understanding_status" (.str "unknown") with hr0
        refine ⟨((r0.set "understanding_numeric"
          (understandingNumericMap (r0.getV "understanding_status"))).set
            "understanding_numeric"
            (fillna0 ((r0.set "understanding_numeric"
              (understandingNumericMap
                (r0.getV "understanding_status"))).getV
                  "understanding_numeric"))), ?_, ?_⟩
        · simp only [DataFrame.setColWith, List.get?_map]
          rw [show df2.rows.get? i = some r0 from
            by simpa [understandingParams] using hg]
          rfl
        · rw [Row.getV_set_ne _ _ (by decide), Row.getV_set_ne _ _ (by decide)]
          exact Row.getV_set_self r _ _

/-- Witness for C6 on the mixed three-row table of the spec's end-to-end
scenario (two non-empty transcripts, one empty): row 2 is labelled
`'neutral'` with no classifier call of its own while the batch as a whole
succeeds. -/
theorem empty_text_short_circuit_witness :
    ∃ out tr, process_sentiment_batch (fun _ => Except.ok (some "positive")) 3
        ⟨["comment_history_table_string", "sentiment", "resolution_status",
          "understanding_status"],
         [[("comment_history_table_string", .str "this is broken, please help")],
          [("comment_history_table_string", .str "thanks, all good now")],
          [("comment_history_table_string", .str "")]]⟩ = some (out, tr) ∧
      (∀ ci, processRow sentimentParams (fun _ => Except.ok (some "positive")) 3 3 ci
          [("comment_history_table_string", Value.str "")] =
        some (Row.set [("comment_history_table_string", Value.str "")] "sentiment"
          (Value.str "neutral"), ci, [])) ∧
      ∃ r1, out.rows.get? 2 = some r1 ∧ r1.getV "sentiment" = Value.str "neutral" := by
  cases hok : process_sentiment_batch (fun _ => Except.ok (some "positive")) 3
      ⟨["comment_history_table_string", "sentiment", "resolution_status",
        "understanding_status"],
       [[("comment_history_table_string", .str "this is broken, please help")],
        [("comment_history_table_string", .str "thanks, all good now")],
        [("comment_history_table_string", .str "")]]⟩ with
  | none =>
    have hik : (process_sentiment_batch (fun _ => Except.ok (some "positive")) 3
        ⟨["comment_history_table_string", "sentiment", "resolution_status",
          "understanding_status"],
         [[("comment_history_table_string", .str "this is broken, please help")],
          [("comment_history_table_string", .str "thanks, all good now")],
          [("comment_history_table_string", .str "")]]⟩).isSome = true := by decide
    rw [hok] at hik
    simp at hik
  | some x =>
    obtain ⟨out, tr⟩ := x
    have h := (empty_text_short_circuit (fun _ => Except.ok (some "positive")) 3
      ⟨["comment_history_table_string", "sentiment", "resolution_status",
        "understanding_status"],
       [[("comment_history_table_string", .str "this is broken, please help")],
        [("comment_history_table_string", .str "thanks, all good now")],
        [("comment_history_table_string", .str "")]]⟩
      (by decide) (by decide) (by decide) (by decide)).1 out tr hok 2
      [("comment_history_table_string", Value.str "")] rfl (Or.inr rfl) (by decide)
    exact ⟨out, tr, rfl, h.1, h.2⟩

theorem enrichRows_filter_trace (p : StageParams)
    (classify : ℕ → Except String (Option String)) (mr fuel : ℕ) :
    ∀ (rows : List Row) (ci : ℕ),
      (enrichRows p classify mr fuel rows ci).map (fun x => (x.2.1, x.2.2)) =
      (enrichRows p classify mr fuel
        (rows.filter fun r => (r.getV p.labelCol).isna) ci).map
          (fun x => (x.2.1, x.2.2)) := by
  intro rows
  induction rows with
  | nil => intro ci; simp
  | cons r rs ih =>
    intro ci
    by_cases h : (r.getV p.labelCol).isna = true
    · rw [List.filter_cons_of_pos (by simpa using h)]
      cases hp : processRow p classify mr fuel ci r with
      | none => simp [enrichRows, h, hp]
      | some x =>
        obtain ⟨r1, ci1, tr1⟩ := x
        have hih := ih ci1
        simp only [enrichRows, h, if_true, hp]
        cases h1 : enrichRows p classify mr fuel rs ci1 with
        | none =>
          rw [h1] at hih
          cases h2 : enrichRows p classify mr fuel
              (rs.filter fun r => (r.getV p.labelCol).isna) ci1 with
          | none => simp
          | some y => rw [h2] at hih; simp at hih
        | some y =>
          rw [h1] at hih
          cases h2 : enrichRows p classify mr fuel
              (rs.filter fun r => (r.getV p.labelCol).isna) ci1 with
          | none => rw [h2] at hih; simp at hih
          | some z =>
            rw [h2] at hih
            obtain ⟨rs1, ci2, tr2⟩ := y
            obtain ⟨rs2, ci3, tr3⟩ := z
            simp only [Option.map_some', Option.some.injEq, Prod.mk.injEq] at hih
            simp [hih.1, hih.2]
    · rw [List.filter_cons_of_neg (by simpa using h)]
      have hih := ih ci
      simp only [enrichRows, h, if_false]
      cases h1 : enrichRows p classify mr fuel rs ci with
      | none => rw [h1] at hih; simpa using hih
      | some y =>
        rw [h1] at hih
        obtain ⟨rs1, ci2, tr2⟩ := y
        simp [← hih]

theorem processBatchCore_eq_early (p : StageParams)
    (classify : ℕ → Except String (Option String)) (mr fuel : ℕ)
    (cols : List String) (rows : List Row)
    (hcm : p.commentCol ∈ cols) (hlm : p.labelCol ∈ cols)
    (hall : ∀ x ∈ rows, (x.getV p.labelCol).isna = false) :
    processBatchCore p classify mr fuel ⟨cols, rows⟩ = some (⟨cols, rows⟩, [], false) := by
  have hallb : (rows.all fun r => !(r.getV p.labelCol).isna) = true := by
    rw [List.all_eq_true]
    intro x hx
    simp [hall x hx]
  simp [processBatchCore, DataFrame.hasCol, hcm, hlm, List.all_eq_true.mp hallb]
  intro x hx hxt
  exact absurd hxt (by simp [hall x hx])

theorem processBatchCore_eq_main (p : StageParams)
    (classify : ℕ → Except String (Option String)) (mr fuel : ℕ)
    (cols : List String) (rows : List Row)
    (hcm : p.commentCol ∈ cols) (hlm : p.labelCol ∈ cols)
    (hall : ¬ ∀ x ∈ rows, (x.getV p.labelCol).isna = false) :
    processBatchCore p classify mr fuel ⟨cols, rows⟩ =
      (enrichRows p classify mr fuel rows 0).map
        (fun x => (⟨cols, x.1⟩, x.2.2, true)) := by
  have hallb : ¬ ∀ x ∈ (⟨cols, rows⟩ : DataFrame).rows, (x.getV p.labelCol).isna = false := hall
  cases henr : enrichRows p classify mr fuel rows 0 with
  | none => simp [processBatchCore, DataFrame.hasCol, hcm, hlm, hallb, henr]
  | some x =>
    obtain ⟨rs1, ci2, tr2⟩ := x
    simp [processBatchCore, DataFrame.hasCol, hcm, hlm, hallb, henr]

theorem processBatchCore_trace_filter (p : StageParams)
    (classify : ℕ → Except String (Option String)) (mr fuel : ℕ) (df : DataFrame)
    (hc : df.hasCol p.commentCol = true) (hl : df.hasCol p.labelCol = true) :
    (processBatchCore p classify mr fuel df).map (fun x => x.2.1) =
      (processBatchCore p classify mr fuel
        ⟨df.cols, df.rows.filter fun r => (r.getV p.labelCol).isna⟩).map
          (fun x => x.2.1) := by
  obtain ⟨cols, rows⟩ := df
  have hcm : p.commentCol ∈ cols := by simpa [DataFrame.hasCol] using hc
  have hlm : p.labelCol ∈ cols := by simpa [DataFrame.hasCol] using hl
  by_cases hall : ∀ r ∈ rows, (r.getV p.labelCol).isna = false
  · have hfilter : rows.filter (fun r => (r.getV p.labelCol).isna) = [] := by
      simp only [List.filter_eq_nil_iff]
      intro a ha
      simp [hall a ha]
    rw [processBatchCore_eq_early p classify mr fuel cols rows hcm hlm hall]
    simp only [hfilter]
    rw [processBatchCore_eq_early p classify mr fuel cols [] hcm hlm (by simp)]
    simp
  · have hallL := hall
    push_neg at hall
    obtain ⟨r0, hr0, hnull⟩ := hall
    have hnull2 : (r0.getV p.labelCol).isna = true := by
      cases hv : (r0.getV p.labelCol).isna
      · exact absurd hv hnull
      · rfl
    have hmemf : r0 ∈ rows.filter fun r => (r.getV p.labelCol).isna := by
      simp [List.mem_filter, hr0, hnull2]
    have hallR : ¬ ∀ x ∈ (rows.filter fun r => (r.getV p.labelCol).isna),
        (x.getV p.labelCol).isna = false := by
      intro hx
      exact absurd (hx r0 hmemf) (by simp [hnull2])
    rw [processBatchCore_eq_main p classify mr fuel cols rows hcm hlm hallL]
    rw [processBatchCore_eq_main p classify mr fuel cols _ hcm hlm hallR]
    have htr := enrichRows_filter_trace p classify mr fuel rows 0
    cases h1 : enrichRows p classify mr fuel rows 0 with
    | none =>
      rw [h1] at htr
      cases h2 : enrichRows p classify mr fuel
          (rows.filter fun r => (r.getV p.labelCol).isna) 0 with
      | none => simp
      | some y => rw [h2] at htr; simp at htr
    | some x =>
      rw [h1] at htr
      cases h2 : enrichRows p classify mr fuel
          (rows.filter fun r => (r.getV p.labelCol).isna) 0 with
      | none => rw [h2] at htr; simp at htr
      | some y =>
        rw [h2] at htr
        obtain ⟨rs1, ci2, tr2⟩ := x
        obtain ⟨rs2, ci3, tr3⟩ := y
        simp only [Option.map_some', Option.some.injEq, Prod.mk.injEq] at htr
        simp [htr.2]

theorem mapSnd_of_trace (o1 o2 : Option (DataFrame × List Ev × Bool))
    (f1 f2 : DataFrame × List Ev × Bool → DataFrame × List Ev)
    (hf1 : ∀ x, (f1 x).2 = x.2.1) (hf2 : ∀ x, (f2 x).2 = x.2.1)
    (h : o1.map (fun x => x.2.1) = o2.map (fun x => x.2.1)) :
    (o1.map f1).map (fun y => y.2) = (o2.map f2).map (fun y => y.2) := by
  cases o1 with
  | none => cases o2 with
    | none => rfl
    | some y => simp at h
  | some x =>
    cases o2 with
    | none => simp at h
    | some y =>
      simp only [Option.map_some', Option.some.injEq] at h ⊢
      rw [hf1 x, hf2 y, h]

/-- C5: an enrichment stage touches the classifier only for rows whose
label is currently na.  First two conjuncts: on a table where every row
already carries a label, the sentiment and resolution stages make zero
classifier calls (empty trace) and return the table unchanged.  Last two
conjuncts: the stage's event trace on any table equals its trace on the
sub-table of na-labelled rows alone, so labelled rows trigger no calls. -/
theorem skip_labeled_rows
    (classify : ℕ → Except String (Option String)) (fuel : ℕ) (df : DataFrame)
    (hc : df.hasCol "comment_history_table_string" = true)
    (hls : df.hasCol "sentiment" = true)
    (hlr : df.hasCol "resolution_status" = true) :
    ((∀ r ∈ df.rows, (r.getV "sentiment").isna = false) →
        process_sentiment_batch classify fuel df = some (df, [])) ∧
    ((∀ r ∈ df.rows, (r.getV "resolution_status").isna = false) →
        process_resolution_batch classify fuel df = some (df, [])) ∧
    (process_sentiment_batch classify fuel df).map (fun x => x.2) =
      (process_sentiment_batch classify fuel
        ⟨df.cols, df.rows.filter fun r => (r.getV "sentiment").isna⟩).map
          (fun x => x.2) ∧
    (process_resolution_batch classify fuel df).map (fun x => x.2) =
      (process_resolution_batch classify fuel
        ⟨df.cols, df.rows.filter fun r => (r.getV "resolution_status").isna⟩).map
          (fun x => x.2) := by
  have hcm : "comment_history_table_string" ∈ df.cols := by
    simpa [DataFrame.hasCol] using hc
  have hsm : "sentiment" ∈ df.cols := by simpa [DataFrame.hasCol] using hls
  have hrm : "resolution_status" ∈ df.cols := by simpa [DataFrame.hasCol] using hlr
  obtain ⟨cols, rows⟩ := df
  refine ⟨?_, ?_, ?_, ?_⟩
  · intro hall
    rw [process_sentiment_batch,
      processBatchCore_eq_early sentimentParams classify 3 fuel cols rows hcm hsm hall]
    rfl
  · intro hall
    rw [process_resolution_batch,
      processBatchCore_eq_early resolutionParams classify 3 fuel cols rows hcm hrm hall]
    rfl
  · have h := processBatchCore_trace_filter sentimentParams classify 3 fuel
      ⟨cols, rows⟩ hc hls
    exact mapSnd_of_trace _ _ _ _ (fun x => rfl) (fun x => rfl) h
  · have h := processBatchCore_trace_filter resolutionParams classify 3 fuel
      ⟨cols, rows⟩ hc hlr
    refine mapSnd_of_trace _ _ _ _ ?_ ?_ h <;>
      exact fun x => by rcases x with ⟨a, b, c⟩; cases c <;> rfl

/-- Witness for C5 at a concrete table whose single row is already
labelled. -/
theorem skip_labeled_rows_witness :
    process_sentiment_batch (fun _ => Except.error "x") 3
      ⟨["comment_history_table_string", "sentiment", "resolution_status"],
       [[("comment_history_table_string", .str "hello"), ("sentiment", .str "positive"),
         ("resolution_status", .str "resolved")]]⟩ =
      some (⟨["comment_history_table_string", "sentiment", "resolution_status"],
        [[("comment_history_table_string", .str "hello"), ("sentiment", .str "positive"),
          ("resolution_status", .str "resolved")]]⟩, []) :=
  (skip_labeled_rows (fun _ => Except.error "x") 3
    ⟨["comment_history_table_string", "sentiment", "resolution_status"],
     [[("comment_history_table_string", .str "hello"), ("sentiment", .str "positive"),
       ("resolution_status", .str "resolved")]]⟩
    (by decide) (by decide) (by decide)).1 (by decide)

/-- C3 counterexample: the response text `"positive negative"` contains
both valid sentiment keywords — it is ambiguous in the sense of the claim
— yet the sentiment stage's keyword interpretation returns the positive
pole `'positive'`, not the claimed default `'negative'`, because
`'positive' in result` is tested first. -/
theorem ambiguous_sentiment_positive_cex :
    strContains "positive negative" "positive" = true ∧
    strContains "positive negative" "negative" = true ∧
    interpretSentiment "positive negative" = "positive" := by
  refine ⟨by decide, by decide, by decide⟩

/-- C3 amended: the resolution and understanding interpreters return the
positive pole exactly on an unambiguous positive response and default to
the negative pole on an ambiguous response (both keywords present) or a
response with neither keyword; the sentiment interpreter instead returns
`'positive'` whenever `'positive'` occurs — even alongside `'negative'` —
and returns `'negative'` only when `'positive'` is absent. -/
theorem keyword_interpretation_amended (s : String) :
    (strContains s "positive" = true → interpretSentiment s = "positive") ∧
    (strContains s "positive" = false → interpretSentiment s = "negative") ∧
    (strContains (strLower s) "resolved" = true →
      strContains (strLower s) "unresolved" = false →
      interpretResolution s = "resolved") ∧
    (strContains (strLower s) "unresolved" = true →
      interpretResolution s = "unresolved") ∧
    (strContains (strLower s) "resolved" = false →
      interpretResolution s = "unresolved") ∧
    (strContains (strLower s) "understood" = true →
      strContains (strLower s) "misunderstood" = false →
      interpretUnderstanding s = "understood") ∧
    (strContains (strLower s) "misunderstood" = true →
      interpretUnderstanding s = "misunderstood") ∧
    (strContains (strLower s) "understood" = false →
      interpretUnderstanding s = "misunderstood") := by
  refine ⟨fun h1 => ?_, fun h1 => ?_, fun h1 h2 => ?_, fun h1 => ?_, fun h1 => ?_,
    fun h1 h2 => ?_, fun h1 => ?_, fun h1 => ?_⟩
  · simp [interpretSentiment, h1]
  · simp [interpretSentiment, h1]
  · simp [interpretResolution, h1, h2]
  · simp [interpretResolution, h1]
  · simp [interpretResolution, h1]
  · simp [interpretUnderstanding, h1, h2]
  · simp [interpretUnderstanding, h1]
  · simp [interpretUnderstanding, h1]

/-- Witness for the amended C3 at concrete responses. -/
theorem keyword_interpretation_amended_witness :
    interpretSentiment "positive" = "positive" ∧
    interpretResolution "it was Resolved" = "resolved" ∧
    interpretUnderstanding "sadly misunderstood" = "misunderstood" :=
  ⟨(keyword_interpretation_amended "positive").1 (by decide),
   (keyword_interpretation_amended "it was Resolved").2.2.1 (by decide) (by decide),
   (keyword_interpretation_amended "sadly misunderstood").2.2.2.2.2.2.1 (by decide)⟩

/-- C2 counterexample: a one-row table whose transcript is empty gets the
sentinel `understanding_status = 'unknown'`, and the understanding
stage's derived numeric column records `0` for it — not null — because of
the `fillna(0)` applied after the mapping
(src/04_evaluate_understanding.py, line 202). -/
theorem understanding_unknown_maps_to_zero_cex :
    (process_understanding_batch (fun _ => Except.error "x") 3
      ⟨["comment_history_table_string", "understanding_status"],
       [[("comment_history_table_string", .str "")]]⟩).map
        (fun x => x.1.rows.map fun r =>
          (r.getV "understanding_status", r.getV "understanding_numeric")) =
      some [(Value.str "unknown", Value.num 0)] ∧
    Value.num 0 ≠ Value.null := by
  exact ⟨rfl, by decide⟩

/-- C2 amended: per output row, the resolution stage's derived numeric
column follows the §4.3 pattern (`'resolved'` ↦ 1, `'unresolved'` ↦ 0,
`'unknown'` ↦ null), while the understanding stage maps `'understood'` ↦
1 and `'misunderstood'` ↦ 0 but fills the na cells with 0, so its
sentinel `'unknown'` ends up as 0 rather than null. -/
theorem derived_numeric_mapping_amended
    (classify : ℕ → Except String (Option String)) (fuel : ℕ) (df : DataFrame)
    (out : DataFrame) (tr : List Ev)
    (hc : df.hasCol "comment_history_table_string" = true)
    (hlr : df.hasCol "resolution_status" = true)
    (hlu : df.hasCol "understanding_status" = true)
    (hnr : ∃ r ∈ df.rows, (r.getV "resolution_status").isna = true)
    (hnu : ∃ r ∈ df.rows, (r.getV "understanding_status").isna = true) :
    (process_resolution_batch classify fuel df = some (out, tr) →
      ∀ r ∈ out.rows,
        (r.getV "resolution_status" = .str "resolved" →
          r.getV "resolution_numeric" = .num 1) ∧
        (r.getV "resolution_status" = .str "unresolved" →
          r.getV "resolution_numeric" = .num 0) ∧
        (r.getV "resolution_status" = .str "unknown" →
          r.getV "resolution_numeric" = .null)) ∧
    (process_understanding_batch classify fuel df = some (out, tr) →
      ∀ r ∈ out.rows,
        (r.getV "understanding_status" = .str "understood" →
          r.getV "understanding_numeric" = .num 1) ∧
        (r.getV "understanding_status" = .str "misunderstood" →
          r.getV "understanding_numeric" = .num 0) ∧
        (r.getV "understanding_status" = .str "unknown" →
          r.getV "understanding_numeric" = .num 0)) := by
  have hcm : "comment_history_table_string" ∈ df.cols := by
    simpa [DataFrame.hasCol] using hc
  have hrm : "resolution_status" ∈ df.cols := by simpa [DataFrame.hasCol] using hlr
  have hum : "understanding_status" ∈ df.cols := by simpa [DataFrame.hasCol] using hlu
  obtain ⟨cols, rows⟩ := df
  constructor
  · intro hbatch
    have hall : ¬ ∀ x ∈ rows, (x.getV "resolution_status").isna = false := by
      obtain ⟨r0, hr0, hnull⟩ := hnr
      intro hx
      exact absurd (hx r0 hr0) (by simp [hnull])
    rw [process_resolution_batch, processBatchCore_eq_main resolutionParams classify 3
      fuel cols rows hcm hrm hall] at hbatch
    cases henr : enrichRows resolutionParams classify 3 fuel rows 0 with
    | none => rw [henr] at hbatch; simp at hbatch
    | some x =>
      obtain ⟨rows1, ci, tr1⟩ := x
      rw [henr] at hbatch
      simp only [Option.map_some', if_true, Option.some.injEq, Prod.mk.injEq] at hbatch
      obtain ⟨hout, -⟩ := hbatch
      intro r hrmem
      rw [← hout] at hrmem
      simp only [DataFrame.setColWith, List.mem_map] at hrmem
      obtain ⟨r1, -, rfl⟩ := hrmem
      refine ⟨fun hst => ?_, fun hst => ?_, fun hst => ?_⟩ <;>
        rw [Row.getV_set_ne _ _ (by decide)] at hst <;>
        rw [Row.getV_set_self, hst] <;> rfl
  · intro hbatch
    have hall : ¬ ∀ x ∈ rows, (x.getV "understanding_status").isna = false := by
      obtain ⟨r0, hr0, hnull⟩ := hnu
      intro hx
      exact absurd (hx r0 hr0) (by simp [hnull])
    rw [process_understanding_batch, processBatchCore_eq_main understandingParams
      classify 3 fuel cols rows hcm hum hall] at hbatch
    cases henr : enrichRows understandingParams classify 3 fuel rows 0 with
    | none => rw [henr] at hbatch; simp at hbatch
    | some x =>
      obtain ⟨rows1, ci, tr1⟩ := x
      rw [henr] at hbatch
      simp only [Option.map_some', if_true, Option.some.injEq, Prod.mk.injEq] at hbatch
      obtain ⟨hout, -⟩ := hbatch
      intro r hrmem
      rw [← hout] at hrmem
      simp only [DataFrame.setColWith, List.mem_map] at hrmem
      obtain ⟨r1, hr1, rfl⟩ := hrmem
      try simp only [List.mem_map] at hr1
      obtain ⟨r0, -, rfl⟩ := hr1
      refine ⟨fun hst => ?_, fun hst => ?_, fun hst => ?_⟩ <;>
        rw [Row.getV_set_ne _ _ (by decide), Row.getV_set_ne _ _ (by decide)] at hst <;>
        rw [Row.getV_set_self, Row.getV_set_self, hst] <;> rfl

/-- Witness for the amended C2: the resolution stage on a one-row table
with an empty transcript yields the `'unknown'` ↦ null numeric cell. -/
theorem derived_numeric_mapping_amended_witness :
    Row.getV [("comment_history_table_string", Value.str ""),
      ("resolution_status", Value.str "unknown"),
      ("resolution_numeric", Value.null)] "resolution_numeric" = Value.null := by
  have h := derived_numeric_mapping_amended (fun _ => Except.error "x") 3
    ⟨["comment_history_table_string", "resolution_status", "understanding_status"],
     [[("comment_history_table_string", .str "")]]⟩
    ⟨["comment_history_table_string", "resolution_status", "understanding_status",
        "resolution_numeric"],
      [[("comment_history_table_string", .str ""),
        ("resolution_status", .str "unknown"),
        ("resolution_numeric", Value.null)]]⟩ []
    (by decide) (by decide) (by decide)
    ⟨[("comment_history_table_string", .str "")], by decide, by decide⟩
    ⟨[("comment_history_table_string", .str "")], by decide, by decide⟩
  exact (h.1 (by decide) _ (by decide)).2.2 (by decide)

theorem mapME_ok_mem {α β : Type} {f : α → Except String β} :
    ∀ {l : List α} {l2 : List β}, mapME f l = .ok l2 →
      ∀ b ∈ l2, ∃ a ∈ l, f a = .ok b := by
  intro l
  induction l with
  | nil =>
    intro l2 h b hb
    simp only [mapME, Except.ok.injEq] at h
    subst h
    simp at hb
  | cons a as ih =>
    intro l2 h b hb
    simp only [mapME] at h
    cases hf : f a with
    | error e => rw [hf] at h; simp at h
    | ok v =>
      rw [hf] at h
      cases hrest : mapME f as with
      | error e => rw [hrest] at h; simp at h
      | ok vs =>
        rw [hrest] at h
        simp only [Except.ok.injEq] at h
        subst h
        rcases List.mem_cons.mp hb with rfl | hb2
        · exact ⟨a, by simp, hf⟩
        · obtain ⟨a2, ha2, hfa2⟩ := ih hrest b hb2
          exact ⟨a2, by simp [ha2], hfa2⟩

theorem setColWithE_ok_mem {df : DataFrame} {c : String} {f : Row → Except String Value}
    {out : DataFrame} (h : df.setColWithE c f = .ok out) :
    ∀ r ∈ out.rows, ∃ r0 ∈ df.rows, ∃ v, f r0 = .ok v ∧ r = r0.set c v := by
  intro r hrm
  unfold DataFrame.setColWithE at h
  cases hm : mapME (fun r =>
      match f r with
      | .error e => .error e
      | .ok v => .ok (r.set c v)) df.rows with
  | error e => rw [hm] at h; simp at h
  | ok rows =>
    rw [hm] at h
    simp only [Except.ok.injEq] at h
    subst h
    obtain ⟨r0, hr0, hf0⟩ := mapME_ok_mem hm r hrm
    cases hfr : f r0 with
    | error e => rw [hfr] at hf0; simp at hf0
    | ok v =>
      rw [hfr] at hf0
      simp only [Except.ok.injEq] at hf0
      exact ⟨r0, hr0, v, hfr, hf0.symm⟩

theorem setColWithE_ok_cols {df : DataFrame} {c : String} {f : Row → Except String Value}
    {out : DataFrame} (h : df.setColWithE c f = .ok out) :
    out.cols = if df.hasCol c then df.cols else df.cols ++ [c] := by
  unfold DataFrame.setColWithE at h
  cases hm : mapME (fun r =>
      match f r with
      | .error e => .error e
      | .ok v => .ok (r.set c v)) df.rows with
  | error e => rw [hm] at h; simp at h
  | ok rows =>
    rw [hm] at h
    simp only [Except.ok.injEq] at h
    subst h
    rfl

theorem hasCol_setColWith (df : DataFrame) (c0 : String) (f : Row → Value) (c : String)
    (h : df.hasCol c = true) : (df.setColWith c0 f).hasCol c = true := by
  simp only [DataFrame.hasCol, DataFrame.setColWith] at h ⊢
  split <;> simp_all

theorem hasCol_setColWithE {df : DataFrame} {c0 : String} {f : Row → Except String Value}
    {out : DataFrame} (hok : df.setColWithE c0 f = .ok out) (c : String)
    (h : df.hasCol c = true) : out.hasCol c = true := by
  have hcols := setColWithE_ok_cols hok
  simp only [DataFrame.hasCol] at h ⊢
  rw [hcols]
  split <;> simp_all

theorem ratingNumericMap_eq_null (v : Value) (h1 : v ≠ .str "good")
    (h2 : v ≠ .str "offered") : ratingNumericMap v = .null := by
  unfold ratingNumericMap
  split <;> simp_all

theorem sentimentNumericMap_eq_null (v : Value) (h1 : v ≠ .str "positive")
    (h2 : v ≠ .str "negative") : sentimentNumericMap v = .null := by
  unfold sentimentNumericMap
  split <;> simp_all

/-- C4: the numeric projection computes, for every row of the output
table: sentiment `'positive'` ↦ 1, `'negative'` ↦ 0, `'neutral'` ↦ null,
`'unknown'` ↦ null; rating `'good'` ↦ 1, `'offered'` ↦ 0, anything else ↦
null; the boolean support-case flag `True`/`False` ↦ 1/0; and platform
exactly `'amazon_web_services'` ↦ 1 with every other value ↦ 0 (total, no
null case). -/
theorem numeric_projection_totality
    (df out : DataFrame)
    (hs : df.hasCol "sentiment" = true) (hr : df.hasCol "rating" = true)
    (hc : df.hasCol "cloud_support_case_used" = true)
    (hp : df.hasCol "custom_platform" = true)
    (hok : convert_to_numeric df = .ok out) :
    ∀ r ∈ out.rows,
      (r.getV "sentiment" = .str "positive" → r.getV "sentiment_numeric" = .num 1) ∧
      (r.getV "sentiment" = .str "negative" → r.getV "sentiment_numeric" = .num 0) ∧
      (r.getV "sentiment" = .str "neutral" → r.getV "sentiment_numeric" = .null) ∧
      (r.getV "sentiment" = .str "unknown" → r.getV "sentiment_numeric" = .null) ∧
      (r.getV "rating" = .str "good" → r.getV "rating_numeric" = .num 1) ∧
      (r.getV "rating" = .str "offered" → r.getV "rating_numeric" = .num 0) ∧
      (r.getV "rating" ≠ .str "good" → r.getV "rating" ≠ .str "offered" →
        r.getV "rating_numeric" = .null) ∧
      (∀ b, r.getV "cloud_support_case_used" = .bool b →
        r.getV "support_case_numeric" = .num (if b then 1 else 0)) ∧
      (r.getV "custom_platform" = .str "amazon_web_services" →
        r.getV "aws_platform_numeric" = .num 1) ∧
      (r.getV "custom_platform" ≠ .str "amazon_web_services" →
        r.getV "aws_platform_numeric" = .num 0) := by
  unfold convert_to_numeric at hok
  simp only [hs, if_true] at hok
  set df1 := df.setColWith "sentiment_numeric"
    (fun r => sentimentNumericMap (r.getV "sentiment")) with hdf1
  have hrat1 : df1.hasCol "rating" = true := hasCol_setColWith _ _ _ _ hr
  simp only [hrat1, if_true] at hok
  set df2 := df1.setColWith "rating_numeric"
    (fun r => ratingNumericMap (r.getV "rating")) with hdf2
  have hc2 : df2.hasCol "cloud_support_case_used" = true :=
    hasCol_setColWith _ _ _ _ (hasCol_setColWith _ _ _ _ hc)
  simp only [hc2, if_true] at hok
  cases h3 : df2.setColWithE "support_case_numeric" (fun r => do
      let n ← pyInt (r.getV "cloud_support_case_used")
      return Value.num (n : ℚ)) with
  | error e => rw [h3] at hok; simp at hok
  | ok df3 =>
    rw [h3] at hok
    have hp3 : df3.hasCol "custom_platform" = true :=
      hasCol_setColWithE h3 _
        (hasCol_setColWith _ _ _ _ (hasCol_setColWith _ _ _ _ hp))
    replace hok : df3.setColWith "aws_platform_numeric"
        (fun r => awsPlatformNumericMap (r.getV "custom_platform")) = out := by
      simpa [hp3] using hok
    intro r hrmem
    rw [← hok] at hrmem
    simp only [DataFrame.setColWith, List.mem_map] at hrmem
    obtain ⟨r3, hr3, rfl⟩ := hrmem
    obtain ⟨r2, hr2, v, hfv, rfl⟩ := setColWithE_ok_mem h3 r3 hr3
    obtain ⟨n, hpy, rfl⟩ : ∃ n, pyInt (r2.getV "cloud_support_case_used") = .ok n ∧
        v = Value.num (n : ℚ) := by
      cases hq : pyInt (r2.getV "cloud_support_case_used") with
      | error e => rw [hq] at hfv; simp at hfv
      | ok m =>
        rw [hq] at hfv
        exact ⟨m, rfl, by simpa using hfv.symm⟩
    rw [hdf2] at hr2
    simp only [DataFrame.setColWith, List.mem_map] at hr2
    obtain ⟨r1, hr1m, rfl⟩ := hr2
    rw [hdf1] at hr1m
    simp only [DataFrame.setColWith, List.mem_map] at hr1m
    obtain ⟨r0, hr0, rfl⟩ := hr1m
    set q1 := r0.set "sentiment_numeric" (sentimentNumericMap (r0.getV "sentiment"))
      with hq1
    set q2 := q1.set "rating_numeric" (ratingNumericMap (q1.getV "rating")) with hq2
    set q3 := q2.set "support_case_numeric" (Value.num (n : ℚ)) with hq3
    set q4 := q3.set "aws_platform_numeric"
      (awsPlatformNumericMap (q3.getV "custom_platform")) with hq4
    have gsent : q4.getV "sentiment" = r0.getV "sentiment" := by
      rw [hq4, Row.getV_set_ne _ _ (by decide), hq3, Row.getV_set_ne _ _ (by decide),
        hq2, Row.getV_set_ne _ _ (by decide), hq1, Row.getV_set_ne _ _ (by decide)]
    have gsentnum : q4.getV "sentiment_numeric" =
        sentimentNumericMap (r0.getV "sentiment") := by
      rw [hq4, Row.getV_set_ne _ _ (by decide), hq3, Row.getV_set_ne _ _ (by decide),
        hq2, Row.getV_set_ne _ _ (by decide), hq1, Row.getV_set_self]
    have grating1 : q1.getV "rating" = r0.getV "rating" := by
      rw [hq1, Row.getV_set_ne _ _ (by decide)]
    have grating : q4.getV "rating" = r0.getV "rating" := by
      rw [hq4, Row.getV_set_ne _ _ (by decide), hq3, Row.getV_set_ne _ _ (by decide),
        hq2, Row.getV_set_ne _ _ (by decide), grating1]
    have gratnum : q4.getV "rating_numeric" = ratingNumericMap (r0.getV "rating") := by
      rw [hq4, Row.getV_set_ne _ _ (by decide), hq3, Row.getV_set_ne _ _ (by decide),
        hq2, Row.getV_set_self, grating1]
    have gcloud2 : q2.getV "cloud_support_case_used" =
        r0.getV "cloud_support_case_used" := by
      rw [hq2, Row.getV_set_ne _ _ (by decide), hq1, Row.getV_set_ne _ _ (by decide)]
    have gcloud : q4.getV "cloud_support_case_used" =
        r0.getV "cloud_support_case_used" := by
      rw [hq4, Row.getV_set_ne _ _ (by decide), hq3, Row.getV_set_ne _ _ (by decide),
        gcloud2]
    have gscnum : q4.getV "support_case_numeric" = Value.num (n : ℚ) := by
      rw [hq4, Row.getV_set_ne _ _ (by decide), hq3, Row.getV_set_self]
    have gplat3 : q3.getV "custom_platform" = r0.getV "custom_platform" := by
      rw [hq3, Row.getV_set_ne _ _ (by decide), hq2, Row.getV_set_ne _ _ (by decide),
        hq1, Row.getV_set_ne _ _ (by decide)]
    have gplat : q4.getV "custom_platform" = r0.getV "custom_platform" := by
      rw [hq4, Row.getV_set_ne _ _ (by decide), gplat3]
    have gplatnum : q4.getV "aws_platform_numeric" =
        awsPlatformNumericMap (r0.getV "custom_platform") := by
      rw [hq4, Row.getV_set_self, gplat3]
    refine ⟨fun h => ?_, fun h => ?_, fun h => ?_, fun h => ?_, fun h => ?_,
      fun h => ?_, fun h1 h2 => ?_, fun b hb => ?_, fun h => ?_, fun h => ?_⟩
    · rw [gsent] at h; rw [gsentnum, h]; rfl
    · rw [gsent] at h; rw [gsentnum, h]; rfl
    · rw [gsent] at h; rw [gsentnum, h]; rfl
    · rw [gsent] at h; rw [gsentnum, h]; rfl
    · rw [grating] at h; rw [gratnum, h]; rfl
    · rw [grating] at h; rw [gratnum, h]; rfl
    · rw [grating] at h1 h2
      rw [gratnum, ratingNumericMap_eq_null _ h1 h2]
    · rw [gcloud] at hb
      rw [gcloud2, hb] at hpy
      have hn : n = if b then 1 else 0 := by
        simpa [pyInt] using hpy.symm
      rw [gscnum, hn]
      cases b <;> norm_num
    · rw [gplat] at h
      rw [gplatnum, h]
      rfl
    · rw [gplat] at h
      rw [gplatnum]
      simp [awsPlatformNumericMap, h]

/-- Witness for C4 at a concrete one-row table. -/
theorem numeric_projection_totality_witness :
    Row.getV [("sentiment", Value.str "neutral"), ("rating", Value.str "good"),
      ("cloud_support_case_used", Value.bool true),
      ("custom_platform", Value.str "other"),
      ("sentiment_numeric", Value.null), ("rating_numeric", Value.num 1),
      ("support_case_numeric", Value.num 1), ("aws_platform_numeric", Value.num 0)]
      "sentiment_numeric" = Value.null := by
  have h := numeric_projection_totality
    ⟨["sentiment", "rating", "cloud_support_case_used", "custom_platform"],
     [[("sentiment", .str "neutral"), ("rating", .str "good"),
       ("cloud_support_case_used", .bool true), ("custom_platform", .str "other")]]⟩
    ⟨["sentiment", "rating", "cloud_support_case_used", "custom_platform",
      "sentiment_numeric", "rating_numeric", "support_case_numeric",
      "aws_platform_numeric"],
     [[("sentiment", .str "neutral"), ("rating", .str "good"),
       ("cloud_support_case_used", .bool true), ("custom_platform", .str "other"),
       ("sentiment_numeric", Value.null), ("rating_numeric", .num 1),
       ("support_case_numeric", .num 1), ("aws_platform_numeric", .num 0)]]⟩
    (by decide) (by decide) (by decide) (by decide) rfl
  exact (h _ (by decide)).2.2.1 (by decide)


/-- C9: the dataset loader prefers a deserializable checkpoint, falls
back to parsing the CSV (recording whether the checkpoint write went
through), raises `FileNotFoundError` (the spec's `LoadError`) when the
CSV is also absent, and propagates the CSV parse error after reporting
it. -/
theorem load_ticket_data_contract :
    (∀ fs df, fs.pickle = some (.ok df) → load_ticket_data fs = .ok df false) ∧
    (∀ fs df, (∀ t, fs.pickle ≠ some (.ok t)) → fs.csv = some (.ok df) →
       load_ticket_data fs = .ok df fs.pickleWriteOk) ∧
    (∀ fs, (∀ t, fs.pickle ≠ some (.ok t)) → fs.csv = none →
       load_ticket_data fs = .fileNotFound) ∧
    (∀ fs e, (∀ t, fs.pickle ≠ some (.ok t)) → fs.csv = some (.error e) →
       load_ticket_data fs = .parseError e) := by
  refine ⟨?_, ?_, ?_, ?_⟩
  · intro fs df h
    simp [load_ticket_data, h]
  · intro fs df hp hcsv
    rcases hfs : fs.pickle with - | exc
    · simp [load_ticket_data, hfs, hcsv]
    · rcases exc with e | t
      · simp [load_ticket_data, hfs, hcsv]
      · exact absurd hfs (hp t)
  · intro fs hp hcsv
    rcases hfs : fs.pickle with - | exc
    · simp [load_ticket_data, hfs, hcsv]
    · rcases exc with e | t
      · simp [load_ticket_data, hfs, hcsv]
      · exact absurd hfs (hp t)
  · intro fs e hp hcsv
    rcases hfs : fs.pickle with - | exc
    · simp [load_ticket_data, hfs, hcsv]
    · rcases exc with e2 | t
      · simp [load_ticket_data, hfs, hcsv]
      · exact absurd hfs (hp t)

/-- Witness for C9: a filesystem whose checkpoint loads, and one with
neither source. -/
theorem load_ticket_data_contract_witness :
    load_ticket_data ⟨some (.ok ⟨[], []⟩), none, true⟩ = .ok ⟨[], []⟩ false ∧
    load_ticket_data ⟨none, none, true⟩ = .fileNotFound :=
  ⟨load_ticket_data_contract.1 ⟨some (.ok ⟨[], []⟩), none, true⟩ ⟨[], []⟩ rfl,
   load_ticket_data_contract.2.2.1 ⟨none, none, true⟩ (fun t h => by simp at h) rfl⟩

theorem bulkTicketVertex_ok_imp {cols : List String} {idx : ℕ} {r : Row} {v : Row}
    (h : bulkTicketVertex cols idx r = .ok v) :
    ∀ c ∈ bulkNumericCols, (pyInt (r.getD c (.num 0))).isOk = true := by
  unfold bulkTicketVertex at h
  cases h1 : pyInt (r.getD "sentiment_numeric" (.num 0)) with
  | error e => rw [h1] at h; simp [Bind.bind, Except.bind, Functor.map, Except.map] at h
  | ok n1 =>
  rw [h1] at h
  cases h2 : pyInt (r.getD "rating_numeric" (.num 0)) with
  | error e => rw [h2] at h; simp [Bind.bind, Except.bind, Functor.map, Except.map] at h
  | ok n2 =>
  rw [h2] at h
  cases h3 : pyInt (r.getD "resolution_numeric" (.num 0)) with
  | error e => rw [h3] at h; simp [Bind.bind, Except.bind, Functor.map, Except.map] at h
  | ok n3 =>
  rw [h3] at h
  cases h4 : pyInt (r.getD "understanding_numeric" (.num 0)) with
  | error e => rw [h4] at h; simp [Bind.bind, Except.bind, Functor.map, Except.map] at h
  | ok n4 =>
  rw [h4] at h
  cases h5 : pyInt (r.getD "support_case_numeric" (.num 0)) with
  | error e => rw [h5] at h; simp [Bind.bind, Except.bind, Functor.map, Except.map] at h
  | ok n5 =>
  rw [h5] at h
  cases h6 : pyInt (r.getD "aws_platform_numeric" (.num 0)) with
  | error e => rw [h6] at h; simp [Bind.bind, Except.bind, Functor.map, Except.map] at h
  | ok n6 =>
  intro c hc
  simp only [bulkNumericCols, List.mem_cons, List.not_mem_nil, or_false] at hc
  rcases hc with rfl | rfl | rfl | rfl | rfl | rfl <;>
    simp [Except.isOk, Except.toBool, h1, h2, h3, h4, h5, h6]

theorem bulkVerticesAux_ok_cells {cols : List String} :
    ∀ {i : ℕ} {rows : List Row} {vs : List Row},
      bulkVerticesAux cols i rows = .ok vs →
      ∀ r ∈ rows, ∀ c ∈ bulkNumericCols, (pyInt (r.getD c (.num 0))).isOk = true := by
  intro i rows
  induction rows generalizing i with
  | nil => intro vs _ r hr; simp at hr
  | cons a as ih =>
    intro vs h r hr
    unfold bulkVerticesAux at h
    cases h1 : bulkTicketVertex cols i a with
    | error e => rw [h1] at h; simp [Bind.bind, Except.bind, Functor.map, Except.map] at h
    | ok v =>
      rw [h1] at h
      cases h2 : bulkVerticesAux cols (i + 1) as with
      | error e => rw [h2] at h; simp [Bind.bind, Except.bind, Functor.map, Except.map] at h
      | ok vs2 =>
        rcases List.mem_cons.mp hr with rfl | hras
        · exact bulkTicketVertex_ok_imp h1
        · exact ih h2 r hras

theorem bulkRowEdges_ok_imp {uuid : ℕ → String} {idx : ℕ} {r : Row} {es : List Row}
    (h : bulkRowEdges uuid idx r = .ok es) :
    ∀ c ∈ ["resolution_numeric", "rating_numeric"],
      (pyInt (r.getD c (.num 0))).isOk = true := by
  unfold bulkRowEdges at h
  cases h1 : pyInt (r.getD "resolution_numeric" (.num 0)) with
  | error e => rw [h1] at h; simp [Bind.bind, Except.bind, Functor.map, Except.map] at h
  | ok n1 =>
  rw [h1] at h
  cases h2 : pyInt (r.getD "rating_numeric" (.num 0)) with
  | error e => rw [h2] at h; simp [Bind.bind, Except.bind, Functor.map, Except.map] at h
  | ok n2 =>
  intro c hc
  simp only [List.mem_cons, List.not_mem_nil, or_false] at hc
  rcases hc with rfl | rfl <;> simp [Except.isOk, Except.toBool, h1, h2]

theorem bulkEdgesAux_ok_cells {uuid : ℕ → String} :
    ∀ {i : ℕ} {rows : List Row} {es : List Row},
      bulkEdgesAux uuid i rows = .ok es →
      ∀ r ∈ rows, ∀ c ∈ ["resolution_numeric", "rating_numeric"],
        (pyInt (r.getD c (.num 0))).isOk = true := by
  intro i rows
  induction rows generalizing i with
  | nil => intro es _ r hr; simp at hr
  | cons a as ih =>
    intro es h r hr
    unfold bulkEdgesAux at h
    cases h1 : bulkRowEdges uuid i a with
    | error e => rw [h1] at h; simp [Bind.bind, Except.bind, Functor.map, Except.map] at h
    | ok e1 =>
      rw [h1] at h
      cases h2 : bulkEdgesAux uuid (i + 1) as with
      | error e => rw [h2] at h; simp [Bind.bind, Except.bind, Functor.map, Except.map] at h
      | ok es2 =>
        rcases List.mem_cons.mp hr with rfl | hras
        · exact bulkRowEdges_ok_imp h1
        · exact ih h2 r hras

/-- C10: the bulk exporter's `int(row.get(col, 0))` coercions make
vertex and edge construction partial over na cells — they succeed only
when every present numeric-projection cell is non-na: from a successful
run one can conclude that no row holds na in any of the six numeric
columns (vertices) or in the two columns the edges read. -/
theorem bulk_numeric_nonnull_precondition :
    (∀ df vs, create_neptune_bulk_vertices df = .ok vs →
       ∀ r ∈ df.rows, ∀ c ∈ bulkNumericCols, r.get? c ≠ some Value.null) ∧
    (∀ uuid df es, create_neptune_bulk_edges uuid df = .ok es →
       ∀ r ∈ df.rows, ∀ c ∈ ["resolution_numeric", "rating_numeric"],
         r.get? c ≠ some Value.null) := by
  constructor
  · intro df vs hok r hr c hc hnull
    unfold create_neptune_bulk_vertices at hok
    cases haux : bulkVerticesAux df.cols 0 df.rows with
    | error e => rw [haux] at hok; simp [Bind.bind, Except.bind, Functor.map, Except.map] at hok
    | ok ts =>
      have hcell := bulkVerticesAux_ok_cells haux r hr c hc
      rw [Row.getD, hnull] at hcell
      simp [pyInt, Except.isOk, Except.toBool] at hcell
  · intro uuid df es hok r hr c hc hnull
    unfold create_neptune_bulk_edges at hok
    cases haux : bulkEdgesAux uuid 0 df.rows with
    | error e => rw [haux] at hok; simp [Bind.bind, Except.bind, Functor.map, Except.map] at hok
    | ok ts =>
      have hcell := bulkEdgesAux_ok_cells haux r hr c hc
      rw [Row.getD, hnull] at hcell
      simp [pyInt, Except.isOk, Except.toBool] at hcell

/-- Witness for C10: the bulk exporter succeeds on a table whose single
numeric cell is 1, and the theorem then certifies that cell is non-na. -/
theorem bulk_numeric_nonnull_precondition_witness :
    Row.get? [("sentiment_numeric", Value.num 1)] "sentiment_numeric" ≠
      some Value.null := by
  have h := bulk_numeric_nonnull_precondition.1
    ⟨["sentiment_numeric"], [[("sentiment_numeric", Value.num 1)]]⟩
    [[("~id", Value.str "ticket:ticket_0"), ("~label", Value.str "ticket"),
      ("ticket_id", Value.str "ticket_0"), ("sentiment", Value.num 1),
      ("rating", Value.num 0), ("resolution", Value.num 0),
      ("understanding", Value.num 0), ("support_case", Value.num 0),
      ("aws_platform", Value.num 0)], factorResolutionVertex, factorRatingVertex]
    rfl
  exact h _ (by decide) "sentiment_numeric" (by decide)

theorem Row.get?_set_ne (r : Row) {c d : String} (v : Value) (h : d ≠ c) :
    (r.set c v).get? d = r.get? d := by
  have hb : (d == c) = false := by simp [h]
  induction r with
  | nil => simp [Row.set, Row.get?, List.lookup, hb]
  | cons p r ih =>
    obtain ⟨k, w⟩ := p
    by_cases hk : k = c
    · subst hk
      simp [Row.set, Row.get?, List.lookup, hb]
    · simp only [Row.set, if_neg hk]
      by_cases hd : (d == k) = true
      · simp [Row.get?, List.lookup, hd]
      · have hd2 : (d == k) = false := by simpa using hd
        simpa [Row.get?, List.lookup, hd2] using ih

theorem Row.getD_set_ne (r : Row) {c d : String} (v d0 : Value) (h : d ≠ c) :
    (r.set c v).getD d d0 = r.getD d d0 := by
  unfold Row.getD
  rw [Row.get?_set_ne r v h]

theorem hasCol_setColWith_self (df : DataFrame) (c : String) (f : Row → Value) :
    (df.setColWith c f).hasCol c = true := by
  simp only [DataFrame.setColWith, DataFrame.hasCol]
  split
  · assumption
  · simp

theorem exceptOk_of_isOk {α : Type} {e : Except String α} (h : e.isOk = true) :
    ∃ a, e = .ok a := by
  cases e with
  | error x => simp [Except.isOk, Except.toBool] at h
  | ok a => exact ⟨a, rfl⟩

theorem bulkTicketVertex_ok_of {cols : List String} {idx : ℕ} {r : Row}
    (h : ∀ c ∈ bulkNumericCols, (pyInt (r.getD c (.num 0))).isOk = true) :
    ∃ v, bulkTicketVertex cols idx r = .ok v := by
  have hex : ∀ c ∈ bulkNumericCols, ∃ n, pyInt (r.getD c (.num 0)) = .ok n := by
    intro c hc
    cases hx : pyInt (r.getD c (.num 0)) with
    | error e =>
      have := h c hc
      rw [hx] at this
      simp [Except.isOk, Except.toBool] at this
    | ok n => exact ⟨n, rfl⟩
  obtain ⟨n1, e1⟩ := hex "sentiment_numeric" (by decide)
  obtain ⟨n2, e2⟩ := hex "rating_numeric" (by decide)
  obtain ⟨n3, e3⟩ := hex "resolution_numeric" (by decide)
  obtain ⟨n4, e4⟩ := hex "understanding_numeric" (by decide)
  obtain ⟨n5, e5⟩ := hex "support_case_numeric" (by decide)
  obtain ⟨n6, e6⟩ := hex "aws_platform_numeric" (by decide)
  refine exceptOk_of_isOk ?_
  simp [bulkTicketVertex, e1, e2, e3, e4, e5, e6, Bind.bind, Except.bind,
    Functor.map, Except.map, Pure.pure, Except.pure, Except.isOk, Except.toBool]

theorem bulkVerticesAux_ok_of {cols : List String} :
    ∀ {rows : List Row} {i : ℕ},
      (∀ r ∈ rows, ∀ c ∈ bulkNumericCols, (pyInt (r.getD c (.num 0))).isOk = true) →
      ∃ vs, bulkVerticesAux cols i rows = .ok vs := by
  intro rows
  induction rows with
  | nil => intro i _; exact ⟨[], rfl⟩
  | cons a as ih =>
    intro i h
    obtain ⟨v, hv⟩ := @bulkTicketVertex_ok_of cols i a (h a (by simp))
    obtain ⟨vs, hvs⟩ := @ih (i + 1) (fun r hr => h r (List.mem_cons_of_mem _ hr))
    exact ⟨v :: vs, by simp [bulkVerticesAux, hv, hvs, Bind.bind, Except.bind,
      Functor.map, Except.map, Pure.pure, Except.pure]⟩

theorem bulkRowEdges_ok_of {uuid : ℕ → String} {idx : ℕ} {r : Row}
    (h : ∀ c ∈ bulkNumericCols, (pyInt (r.getD c (.num 0))).isOk = true) :
    ∃ es, bulkRowEdges uuid idx r = .ok es := by
  have hex : ∀ c ∈ bulkNumericCols, ∃ n, pyInt (r.getD c (.num 0)) = .ok n := by
    intro c hc
    cases hx : pyInt (r.getD c (.num 0)) with
    | error e =>
      have := h c hc
      rw [hx] at this
      simp [Except.isOk, Except.toBool] at this
    | ok n => exact ⟨n, rfl⟩
  obtain ⟨n3, e3⟩ := hex "resolution_numeric" (by decide)
  obtain ⟨n2, e2⟩ := hex "rating_numeric" (by decide)
  refine exceptOk_of_isOk ?_
  simp [bulkRowEdges, e2, e3, Bind.bind, Except.bind, Functor.map,
    Except.map, Pure.pure, Except.pure, Except.isOk, Except.toBool]

theorem bulkEdgesAux_ok_of {uuid : ℕ → String} :
    ∀ {rows : List Row} {i : ℕ},
      (∀ r ∈ rows, ∀ c ∈ bulkNumericCols, (pyInt (r.getD c (.num 0))).isOk = true) →
      ∃ es, bulkEdgesAux uuid i rows = .ok es := by
  intro rows
  induction rows with
  | nil => intro i _; exact ⟨[], rfl⟩
  | cons a as ih =>
    intro i h
    obtain ⟨e1, he1⟩ := @bulkRowEdges_ok_of uuid i a (h a (by simp))
    obtain ⟨es, hes⟩ := @ih (i + 1) (fun r hr => h r (List.mem_cons_of_mem _ hr))
    exact ⟨e1 ++ es, by simp [bulkEdgesAux, he1, hes, Bind.bind, Except.bind,
      Functor.map, Except.map, Pure.pure, Except.pure]⟩

theorem colMean_setColConst (df : DataFrame) (c : String) (q : ℚ)
    (hne : df.rows ≠ []) :
    colMean (df.setColWith c fun _ => .num q) c = .num q := by
  unfold colMean DataFrame.setColWith
  have hvals : ((df.rows.map fun r => r.set c (.num q)).filterMap fun r =>
      match r.getV c with
      | .num qq => some qq
      | _ => none) = df.rows.map fun _ => q := by
    rw [List.filterMap_map]
    induction df.rows with
    | nil => rfl
    | cons a as ih =>
      simp only [List.filterMap_cons, Function.comp, Row.getV_set_self, List.map_cons, ih]
  simp only [hvals]
  cases hr : df.rows with
  | nil => exact absurd hr hne
  | cons a as =>
    have hrep : (as.map fun _ => q) = List.replicate as.length q := by
      simp
    simp only [List.map_cons, hrep]
    have hne2 : ((as.length : ℚ) + 1) ≠ 0 := by positivity
    have hsum : (q :: List.replicate as.length q).sum = ((as.length : ℚ) + 1) * q := by
      simp [List.sum_cons, List.sum_replicate, nsmul_eq_mul]
      ring
    have hlen : (((q :: List.replicate as.length q).length : ℕ) : ℚ) =
        (as.length : ℚ) + 1 := by
      push_cast [List.length_cons, List.length_replicate]
      ring
    simp only [hsum, hlen]
    rw [mul_div_cancel_left₀ q hne2]

/-- C7 counterexample: on an enriched table that lacks the
`resolution_effect` column, the direct Gremlin CSV exporter — the other
half of the graph export stage — does not substitute a placeholder: it
raises the `KeyError` at the `AFFECTS`-edge weight assignment, so "the
graph export stage does not fail" is false as a statement about every
exporter. -/
theorem direct_export_missing_effect_fails_cex :
    DataFrame.hasCol ⟨["resolution_status", "resolution_numeric",
        "understanding_status", "understanding_numeric"],
      [[("resolution_status", .str "resolved"), ("resolution_numeric", .num 1),
        ("understanding_status", .str "understood"),
        ("understanding_numeric", .num 1)]]⟩ "resolution_effect" = false ∧
    convert_to_neptune_gremlin_csv ⟨["resolution_status", "resolution_numeric",
        "understanding_status", "understanding_numeric"],
      [[("resolution_status", .str "resolved"), ("resolution_numeric", .num 1),
        ("understanding_status", .str "understood"),
        ("understanding_numeric", .num 1)]]⟩ =
      .error "KeyError: resolution_effect" :=
  ⟨rfl, rfl⟩

/-- C7 amended: it is only the bulk export pipeline that implements the
edge case, and only on tables whose six coerced numeric columns are
`int()`-coercible in every row (`hcoerce`; an na cell — e.g. the
`sentiment_numeric` of a neutral-sentiment row — still makes the
vertex/edge construction raise, so the spec's unconditional "does not
fail" is wrong even for the bulk exporter): on such a table lacking
`resolution_effect` it warns the operator, installs the placeholder
column with constant value 0.5, and completes, the aggregate `causes`
edge carrying `effect_strength` 0.5.  The direct CSV exporter instead
raises a missing-column error (`direct_export_missing_effect_fails_cex`). -/
theorem bulk_export_placeholder_amended (uuid : ℕ → String) (df : DataFrame)
    (hmiss : df.hasCol "resolution_effect" = false)
    (hcoerce : ∀ r ∈ df.rows, ∀ c ∈ bulkNumericCols,
      (pyInt (r.getD c (.num 0))).isOk = true) :
    ∃ vs es, bulk_pipeline uuid df = .ok (vs, es, true) ∧
      (df.rows ≠ [] → es.getLast? = some
        [("~id", .str "e_causal_resolution_rating"),
         ("~from", .str "factor:resolution"), ("~to", .str "factor:rating"),
         ("~label", .str "causes"), ("effect_strength", .num (1 / 2)),
         ("description",
           .str "Causal effect of resolution status on customer rating")]) := by
  set df1 := df.setColWith "resolution_effect" (fun _ => .num (1 / 2)) with hdf1
  have hrows1 : ∀ r1 ∈ df1.rows, ∀ c ∈ bulkNumericCols,
      (pyInt (r1.getD c (.num 0))).isOk = true := by
    intro r1 hr1 c hc
    rw [hdf1] at hr1
    simp only [DataFrame.setColWith, List.mem_map] at hr1
    obtain ⟨r0, hr0, rfl⟩ := hr1
    have hcne : c ≠ "resolution_effect" := by
      rcases (by simpa [bulkNumericCols] using hc :
        c = "sentiment_numeric" ∨ c = "rating_numeric" ∨ c = "resolution_numeric" ∨
        c = "understanding_numeric" ∨ c = "support_case_numeric" ∨
        c = "aws_platform_numeric") with rfl | rfl | rfl | rfl | rfl | rfl <;> decide
    rw [Row.getD_set_ne _ _ _ hcne]
    exact hcoerce r0 hr0 c hc
  obtain ⟨vs0, hvs0⟩ := @bulkVerticesAux_ok_of df1.cols df1.rows 0 hrows1
  obtain ⟨es0, hes0⟩ := @bulkEdgesAux_ok_of uuid df1.rows 0 hrows1
  have h1 : df1.hasCol "resolution_effect" = true := hasCol_setColWith_self df _ _
  set ev := if df1.rows.isEmpty then Value.num 0
    else colMean df1 "resolution_effect" with hev
  have hv : create_neptune_bulk_vertices df1 =
      .ok (vs0 ++ [factorResolutionVertex, factorRatingVertex]) := by
    unfold create_neptune_bulk_vertices
    rw [hvs0]
    rfl
  have he : create_neptune_bulk_edges uuid df1 =
      .ok ((es0 ++ [[("~id", Value.str "e_causal_resolution_rating"),
        ("~from", Value.str "factor:resolution"),
        ("~to", Value.str "factor:rating"),
        ("~label", Value.str "causes"), ("effect_strength", ev),
        ("description",
          Value.str "Causal effect of resolution status on customer rating")]]
        : List Row)) := by
    unfold create_neptune_bulk_edges
    rw [hes0, h1]
    rfl
  refine ⟨vs0 ++ [factorResolutionVertex, factorRatingVertex],
    (es0 ++ [[("~id", Value.str "e_causal_resolution_rating"),
      ("~from", Value.str "factor:resolution"),
      ("~to", Value.str "factor:rating"),
      ("~label", Value.str "causes"), ("effect_strength", ev),
      ("description",
        Value.str "Causal effect of resolution status on customer rating")]]
      : List Row),
    ?_, ?_⟩
  · unfold bulk_pipeline
    simp only [hmiss, Bool.false_eq_true, if_false]
    rw [← hdf1, hv, he]
    rfl
  · intro hne
    have hne1 : df1.rows ≠ [] := by
      rw [hdf1]
      simpa [DataFrame.setColWith] using hne
    have hie : df1.rows.isEmpty = false := by
      cases hx : df1.rows with
      | nil => exact absurd hx hne1
      | cons a as => simp [hx]
    have hevv : ev = .num (1 / 2) := by
      rw [hev, hie]
      simp only [Bool.false_eq_true, if_false]
      exact colMean_setColConst df "resolution_effect" (1 / 2) hne
    rw [hevv]
    simp [List.getLast?_concat]


/-- Witness for the amended C7 at a concrete one-row table without
`resolution_effect`. -/
theorem bulk_export_placeholder_amended_witness :
    ∃ vs es, bulk_pipeline (fun n => toString n)
      ⟨["sentiment_numeric", "rating_numeric", "resolution_numeric",
        "understanding_numeric", "support_case_numeric", "aws_platform_numeric"],
       [[("sentiment_numeric", .num 1), ("rating_numeric", .num 0),
         ("resolution_numeric", .num 1), ("understanding_numeric", .num 0),
         ("support_case_numeric", .num 1), ("aws_platform_numeric", .num 0)]]⟩ =
      .ok (vs, es, true) ∧
      ((⟨["sentiment_numeric", "rating_numeric", "resolution_numeric",
        "understanding_numeric", "support_case_numeric", "aws_platform_numeric"],
       [[("sentiment_numeric", .num 1), ("rating_numeric", .num 0),
         ("resolution_numeric", .num 1), ("understanding_numeric", .num 0),
         ("support_case_numeric", .num 1), ("aws_platform_numeric", .num 0)]]⟩
         : DataFrame).rows ≠ [] →
        es.getLast? = some
          [("~id", .str "e_causal_resolution_rating"),
           ("~from", .str "factor:resolution"), ("~to", .str "factor:rating"),
           ("~label", .str "causes"), ("effect_strength", .num (1 / 2)),
           ("description",
             .str "Causal effect of resolution status on customer rating")]) :=
  bulk_export_placeholder_amended (fun n => toString n)
    ⟨["sentiment_numeric", "rating_numeric", "resolution_numeric",
      "understanding_numeric", "support_case_numeric", "aws_platform_numeric"],
     [[("sentiment_numeric", .num 1), ("rating_numeric", .num 0),
       ("resolution_numeric", .num 1), ("understanding_numeric", .num 0),
       ("support_case_numeric", .num 1), ("aws_platform_numeric", .num 0)]]⟩
    (by decide) (by decide)

theorem mapME_ok_get? {α β : Type} {f : α → Except String β} :
    ∀ {l : List α} {l2 : List β}, mapME f l = .ok l2 →
      ∀ (i : ℕ) (b : β), l2.get? i = some b →
        ∃ a, l.get? i = some a ∧ f a = .ok b := by
  intro l
  induction l with
  | nil =>
    intro l2 h i b hb
    simp only [mapME, Except.ok.injEq] at h
    subst h
    simp at hb
  | cons a as ih =>
    intro l2 h i b hb
    simp only [mapME] at h
    cases hf : f a with
    | error e => rw [hf] at h; simp at h
    | ok v =>
      rw [hf] at h
      cases hrest : mapME f as with
      | error e => rw [hrest] at h; simp at h
      | ok vs =>
        rw [hrest] at h
        simp only [Except.ok.injEq] at h
        subst h
        cases i with
        | zero =>
          simp only [List.get?] at hb ⊢
          obtain rfl : v = b := by simpa using hb
          exact ⟨a, rfl, hf⟩
        | succ j =>
          simp only [List.get?] at hb ⊢
          exact ih hrest j b hb

theorem setColWith_get? (df : DataFrame) (c0 : String) (f : Row → Value) (i : ℕ)
    {b : Row} (hb : (df.setColWith c0 f).rows.get? i = some b) :
    ∃ a, df.rows.get? i = some a ∧ b = a.set c0 (f a) := by
  simp only [DataFrame.setColWith, List.get?_map] at hb
  cases ha : df.rows.get? i with
  | none => rw [ha] at hb; simp at hb
  | some a =>
    rw [ha] at hb
    simp only [Option.map_some', Option.some.injEq] at hb
    exact ⟨a, rfl, hb.symm⟩

theorem mapWithIdx_get? (f : ℕ → α → β) :
    ∀ (l : List α) (i j : ℕ),
      (mapWithIdx f i l).get? j = (l.get? j).map (f (i + j)) := by
  intro l
  induction l with
  | nil => intro i j; simp [mapWithIdx]
  | cons a as ih =>
    intro i j
    cases j with
    | zero => simp [mapWithIdx]
    | succ j =>
      simp only [mapWithIdx, List.get?, ih (i + 1) j]
      have : i + 1 + j = i + (j + 1) := by omega
      rw [this]

theorem setColIdx_get? (df : DataFrame) (c0 : String) (f : ℕ → Row → Value) (i : ℕ)
    {b : Row} (hb : (df.setColIdx c0 f).rows.get? i = some b) :
    ∃ a, df.rows.get? i = some a ∧ b = a.set c0 (f i a) := by
  simp only [DataFrame.setColIdx, mapWithIdx_get?, Nat.zero_add] at hb
  cases ha : df.rows.get? i with
  | none => rw [ha] at hb; simp at hb
  | some a =>
    rw [ha] at hb
    simp only [Option.map_some', Option.some.injEq] at hb
    exact ⟨a, rfl, hb.symm⟩

theorem astypeIntIfPresent_get? {df : DataFrame} {c0 : String} {out : DataFrame}
    (h : df.astypeIntIfPresent c0 = .ok out) (i : ℕ) {b : Row}
    (hb : out.rows.get? i = some b) :
    ∃ a, df.rows.get? i = some a ∧ ∀ c, c ≠ c0 → b.getV c = a.getV c := by
  unfold DataFrame.astypeIntIfPresent at h
  by_cases hcol : df.hasCol c0 = true
  · rw [if_pos hcol] at h
    unfold DataFrame.setColWithE at h
    cases hm : mapME (fun r =>
        match (do
          let n ← pyInt (r.getV c0)
          return Value.num (n : ℚ) : Except String Value) with
        | .error e => .error e
        | .ok v => .ok (r.set c0 v)) df.rows with
    | error e => rw [hm] at h; simp at h
    | ok rows =>
      rw [hm] at h
      simp only [Except.ok.injEq] at h
      subst h
      obtain ⟨a, ha, hfa⟩ := mapME_ok_get? hm i b hb
      refine ⟨a, ha, fun c hc => ?_⟩
      cases hq : (do
          let n ← pyInt (a.getV c0)
          return Value.num (n : ℚ) : Except String Value) with
      | error e => rw [hq] at hfa; simp at hfa
      | ok v =>
        rw [hq] at hfa
        simp only [Except.ok.injEq] at hfa
        rw [← hfa]
        exact Row.getV_set_ne a v hc
  · rw [if_neg hcol] at h
    simp only [pure, Except.pure, Except.ok.injEq] at h
    subst h
    exact ⟨b, hb, fun c _ => rfl⟩

theorem fillnaIfPresent_get? (df : DataFrame) (c0 : String) (v0 : Value) (i : ℕ)
    {b : Row} (hb : (df.fillnaIfPresent c0 v0).rows.get? i = some b) :
    ∃ a, df.rows.get? i = some a ∧ ∀ c, c ≠ c0 → b.getV c = a.getV c := by
  unfold DataFrame.fillnaIfPresent at hb
  by_cases hcol : df.hasCol c0 = true
  · rw [if_pos hcol] at hb
    obtain ⟨a, ha, rfl⟩ := setColWith_get? df c0 _ i hb
    exact ⟨a, ha, fun c hc => Row.getV_set_ne a _ hc⟩
  · rw [if_neg hcol] at hb
    exact ⟨b, hb, fun c _ => rfl⟩

theorem selectRow_getV (cs : List String) (r : Row) (c : String) (hc : c ∈ cs) :
    (selectRow cs r).getV c = r.getV c := by
  induction cs with
  | nil => simp at hc
  | cons d ds ih =>
    by_cases h : c = d
    · subst h
      simp [selectRow, Row.getV, Row.getD, Row.get?, List.lookup]
    · have hc2 : c ∈ ds := by
        rcases List.mem_cons.mp hc with h2 | h2
        · exact absurd h2 h
        · exact h2
      have hb : (c == d) = false := by simp [h]
      simpa [selectRow, Row.getV, Row.getD, Row.get?, List.lookup, hb] using ih hc2

theorem selectE_ok {df : DataFrame} {cs : List String} {out : DataFrame}
    (h : df.selectE cs = .ok out) :
    out.cols = cs ∧ out.rows = df.rows.map (selectRow cs) := by
  unfold DataFrame.selectE at h
  by_cases hall : (cs.all df.hasCol) = true
  · rw [if_pos hall] at h
    simp only [Except.ok.injEq] at h
    subst h
    exact ⟨rfl, rfl⟩
  · rw [if_neg hall] at h
    simp at h

theorem setColFromColE_ok {df : DataFrame} {tgt : String} {f : Value → Value}
    {src : String} {out : DataFrame} (h : df.setColFromColE tgt f src = .ok out) :
    out = df.setColWith tgt fun r => f (r.getV src) := by
  unfold DataFrame.setColFromColE at h
  by_cases hcol : df.hasCol src = true
  · rw [if_pos hcol] at h
    simp only [Except.ok.injEq] at h
    exact h.symm
  · rw [if_neg hcol] at h
    simp at h

theorem dedupFirstAux_subset :
    ∀ (rs seen : List Row) (r : Row), r ∈ dedupFirstAux seen rs → r ∈ rs := by
  intro rs
  induction rs with
  | nil => intro seen r h; simp [dedupFirstAux] at h
  | cons a as ih =>
    intro seen r h
    simp only [dedupFirstAux] at h
    by_cases hm : a ∈ seen
    · rw [if_pos hm] at h
      exact List.mem_cons_of_mem _ (ih seen r h)
    · rw [if_neg hm] at h
      rcases List.mem_cons.mp h with rfl | h2
      · simp
      · exact List.mem_cons_of_mem _ (ih _ r h2)

theorem foldProps_getV_not_mem (r : Row) (cols : List String) (c : String)
    (hc : c ∉ cols) :
    ∀ base : Row,
      (cols.foldl (fun acc c2 =>
        if bulkExcluded.contains c2 then acc
        else if (r.getV c2).isna = true then acc
        else acc.set c2 (r.getV c2)) base).getV c = base.getV c := by
  induction cols with
  | nil => intro base; rfl
  | cons d ds ih =>
    intro base
    have hcd : c ≠ d := fun h => hc (h ▸ List.mem_cons_self d ds)
    have hds : c ∉ ds := fun h => hc (List.mem_cons_of_mem _ h)
    simp only [List.foldl_cons]
    rw [ih hds]
    split
    · rfl
    · split
      · rfl
      · exact Row.getV_set_ne base _ hcd

theorem bulkTicketVertex_id {cols : List String} {idx : ℕ} {r v : Row}
    (hid : "~id" ∉ cols) (h : bulkTicketVertex cols idx r = .ok v) :
    v.getV "~id" = .str ("ticket:" ++
      pyStr (r.getD "ticket_id" (.str ("ticket_" ++ toString idx)))) := by
  unfold bulkTicketVertex at h
  cases h1 : pyInt (r.getD "sentiment_numeric" (.num 0)) with
  | error e => rw [h1] at h; simp [Bind.bind, Except.bind] at h
  | ok n1 =>
  rw [h1] at h
  cases h2 : pyInt (r.getD "rating_numeric" (.num 0)) with
  | error e => rw [h2] at h; simp [Bind.bind, Except.bind] at h
  | ok n2 =>
  rw [h2] at h
  cases h3 : pyInt (r.getD "resolution_numeric" (.num 0)) with
  | error e => rw [h3] at h; simp [Bind.bind, Except.bind] at h
  | ok n3 =>
  rw [h3] at h
  cases h4 : pyInt (r.getD "understanding_numeric" (.num 0)) with
  | error e => rw [h4] at h; simp [Bind.bind, Except.bind] at h
  | ok n4 =>
  rw [h4] at h
  cases h5 : pyInt (r.getD "support_case_numeric" (.num 0)) with
  | error e => rw [h5] at h; simp [Bind.bind, Except.bind] at h
  | ok n5 =>
  rw [h5] at h
  cases h6 : pyInt (r.getD "aws_platform_numeric" (.num 0)) with
  | error e => rw [h6] at h; simp [Bind.bind, Except.bind, Functor.map, Except.map] at h
  | ok n6 =>
  rw [h6] at h
  simp only [Bind.bind, Except.bind, Functor.map, Except.map, Pure.pure, Except.pure,
    Except.ok.injEq] at h
  rw [← h, foldProps_getV_not_mem r cols "~id" hid]
  rfl

theorem bulkVerticesAux_get? {cols : List String} :
    ∀ {rows : List Row} {i : ℕ} {vs : List Row},
      bulkVerticesAux cols i rows = .ok vs →
      ∀ (j : ℕ) (r0 : Row), rows.get? j = some r0 →
        ∃ v, vs.get? j = some v ∧ bulkTicketVertex cols (i + j) r0 = .ok v := by
  intro rows
  induction rows with
  | nil => intro i vs _ j r0 hr; simp at hr
  | cons a as ih =>
    intro i vs h j r0 hr
    unfold bulkVerticesAux at h
    cases h1 : bulkTicketVertex cols i a with
    | error e => rw [h1] at h; simp [Bind.bind, Except.bind] at h
    | ok v =>
      rw [h1] at h
      cases h2 : bulkVerticesAux cols (i + 1) as with
      | error e => rw [h2] at h; simp [Bind.bind, Except.bind, Functor.map, Except.map] at h
      | ok vs2 =>
        rw [h2] at h
        simp only [Bind.bind, Except.bind, Functor.map, Except.map, Pure.pure,
          Except.pure, Except.ok.injEq] at h
        subst h
        cases j with
        | zero =>
          simp only [List.get?] at hr ⊢
          obtain rfl : a = r0 := by simpa using hr
          exact ⟨v, rfl, by simpa using h1⟩
        | succ k =>
          simp only [List.get?] at hr ⊢
          obtain ⟨w, hw, hbtv⟩ := ih h2 k r0 hr
          refine ⟨w, hw, ?_⟩
          have : i + 1 + k = i + (k + 1) := by omega
          rwa [this] at hbtv

theorem create_bulk_vertices_id {df : DataFrame} {vs : List Row}
    (h : create_neptune_bulk_vertices df = .ok vs) (hid : "~id" ∉ df.cols) :
    ∀ (i : ℕ) (r0 : Row), df.rows.get? i = some r0 →
      ∃ v, vs.get? i = some v ∧ v.getV "~id" = .str ("ticket:" ++
        pyStr (r0.getD "ticket_id" (.str ("ticket_" ++ toString i)))) := by
  intro i r0 hr
  unfold create_neptune_bulk_vertices at h
  cases haux : bulkVerticesAux df.cols 0 df.rows with
  | error e => rw [haux] at h; simp [Bind.bind, Except.bind] at h
  | ok ts =>
    rw [haux] at h
    simp only [Bind.bind, Except.bind, Pure.pure, Except.pure, Except.ok.injEq] at h
    subst h
    obtain ⟨v, hv, hbtv⟩ := bulkVerticesAux_get? haux i r0 hr
    have hlt : i < ts.length := by
      rcases List.get?_eq_some.mp hv with ⟨hl, -⟩
      exact hl
    refine ⟨v, ?_, ?_⟩
    · rw [List.get?_append hlt]
      exact hv
    · have := bulkTicketVertex_id hid hbtv
      simpa using this

/-- C8 amended: every `~id`/`~from`/`~to` of the direct Gremlin CSV
exporter is a deterministic concatenation of a type prefix and the row
index or status value, and the bulk exporter's ticket-vertex `~id`s are
likewise deterministic; the bulk exporter's per-ticket `has_factor` edge
`~id`s, however, embed a freshly drawn UUID and therefore differ between
two runs (`bulk_edges_uuid_nondeterminism_cex`). -/
theorem export_id_determinism_amended :
    (∀ df out, convert_to_neptune_gremlin_csv df = .ok out →
      (∀ i r, out.rating_vertices.rows.get? i = some r →
         r.getV "~id" = .str ("rating_" ++ toString i)) ∧
      (∀ i r, out.ticket_vertices.rows.get? i = some r →
         r.getV "~id" = .str ("ticket_" ++ toString i)) ∧
      (∀ v ∈ out.resolution_vertices.rows, ∃ r0 ∈ df.rows,
         v.getV "~id" = strConcatV "resolution_" (r0.getV "resolution_status")) ∧
      (∀ v ∈ out.understanding_vertices.rows, ∃ r0 ∈ df.rows,
         v.getV "~id" = strConcatV "understanding_" (r0.getV "understanding_status")) ∧
      (∀ i r, out.resolution_rating_edges.rows.get? i = some r →
         r.getV "~id" = .str ("edge_res_rating_" ++ toString i) ∧
         r.getV "~to" = .str ("rating_" ++ toString i) ∧
         ∃ r0, df.rows.get? i = some r0 ∧
           r.getV "~from" = strConcatV "resolution_" (r0.getV "resolution_status")) ∧
      (∀ i r, out.understanding_rating_edges.rows.get? i = some r →
         r.getV "~id" = .str ("edge_und_rating_" ++ toString i) ∧
         r.getV "~to" = .str ("rating_" ++ toString i) ∧
         ∃ r0, df.rows.get? i = some r0 ∧
           r.getV "~from" = strConcatV "understanding_" (r0.getV "understanding_status")) ∧
      (∀ i r, out.ticket_rating_edges.rows.get? i = some r →
         r.getV "~id" = .str ("edge_ticket_rating_" ++ toString i) ∧
         r.getV "~from" = .str ("ticket_" ++ toString i) ∧
         r.getV "~to" = .str ("rating_" ++ toString i))) ∧
    (∀ df vs, "~id" ∉ df.cols → create_neptune_bulk_vertices df = .ok vs →
      ∀ (i : ℕ) (r0 : Row), df.rows.get? i = some r0 →
        ∃ v, vs.get? i = some v ∧ v.getV "~id" = .str ("ticket:" ++
          pyStr (r0.getD "ticket_id" (.str ("ticket_" ++ toString i))))) := by
  constructor
  · intro df out hok
    unfold convert_to_neptune_gremlin_csv at hok
    dsimp only [] at hok
    cases e1 : ((df.setColIdx "~id" fun i _ => Value.str ("rating_" ++ toString i)).setColWith
        "~label" fun _ => Value.str "rating").astypeIntIfPresent
        "cloud_support_case_used" with
    | error e => rw [e1] at hok; simp [Bind.bind, Except.bind] at hok
    | ok rv3 =>
    rw [e1] at hok
    simp only [Bind.bind, Except.bind] at hok
    cases e2 : df.selectE ["resolution_status", "resolution_numeric"] with
    | error e => rw [e2] at hok; simp at hok
    | ok rsel =>
    rw [e2] at hok
    simp only [] at hok
    cases e3 : df.selectE ["understanding_status", "understanding_numeric"] with
    | error e => rw [e3] at hok; simp at hok
    | ok usel =>
    rw [e3] at hok
    simp only [] at hok
    cases e4 : df.astypeIntIfPresent "cloud_support_case_used" with
    | error e => rw [e4] at hok; simp at hok
    | ok tv1 =>
    rw [e4] at hok
    simp only [] at hok
    cases e6 : ((tv1.setColIdx "~id" fun i _ =>
        Value.str ("edge_res_rating_" ++ toString i)).setColFromColE "~from"
        (strConcatV "resolution_") "resolution_status") with
    | error e => rw [e6] at hok; simp at hok
    | ok re3 =>
    rw [e6] at hok
    simp only [] at hok
    cases e7 : ((((re3.setColIdx "~to" fun i _ =>
        Value.str ("rating_" ++ toString i)).setColWith "~label" fun _ =>
        Value.str "AFFECTS")).setColFromColE "weight" id "resolution_effect") with
    | error e => rw [e7] at hok; simp at hok
    | ok re6 =>
    rw [e7] at hok
    simp only [] at hok
    cases e8 : re6.selectE ["~id", "~from", "~to", "~label", "weight"] with
    | error e => rw [e8] at hok; simp at hok
    | ok rre =>
    rw [e8] at hok
    simp only [] at hok
    cases e9 : ((df.setColIdx "~id" fun i _ =>
        Value.str ("edge_und_rating_" ++ toString i)).setColFromColE "~from"
        (strConcatV "understanding_") "understanding_status") with
    | error e => rw [e9] at hok; simp at hok
    | ok ue2 =>
    rw [e9] at hok
    simp only [] at hok
    cases e10 : (((ue2.setColIdx "~to" fun i _ =>
        Value.str ("rating_" ++ toString i)).setColWith "~label" fun _ =>
        Value.str "INFLUENCES")).selectE ["~id", "~from", "~to", "~label"] with
    | error e => rw [e10] at hok; simp at hok
    | ok ure =>
    rw [e10] at hok
    simp only [] at hok
    cases e11 : ((((df.setColIdx "~id" fun i _ =>
        Value.str ("edge_ticket_rating_" ++ toString i)).setColIdx "~from" fun i _ =>
        Value.str ("ticket_" ++ toString i)).setColIdx "~to" fun i _ =>
        Value.str ("rating_" ++ toString i)).setColWith "~label" fun _ =>
        Value.str "HAS_RATING").selectE ["~id", "~from", "~to", "~label"] with
    | error e => rw [e11] at hok; simp at hok
    | ok tre =>
    rw [e11] at hok
    simp only [Pure.pure, Except.pure, Except.ok.injEq] at hok
    subst hok
    refine ⟨?_, ?_, ?_, ?_, ?_, ?_, ?_⟩
    · intro i r hri
      simp only [DataFrame.reorderFront, List.get?_map] at hri
      cases hb : (rv3.fillnaIfPresent "custom_product" (Value.str "unknown")).rows.get? i with
      | none => rw [hb] at hri; simp at hri
      | some b =>
        rw [hb] at hri
        simp only [Option.map_some', Option.some.injEq] at hri
        subst hri
        rw [selectRow_getV _ _ _ (by simp)]
        obtain ⟨b3, hb3, hpres⟩ := fillnaIfPresent_get? _ _ _ i hb
        rw [hpres "~id" (by decide)]
        obtain ⟨b2, hb2, hpres2⟩ := astypeIntIfPresent_get? e1 i hb3
        rw [hpres2 "~id" (by decide)]
        obtain ⟨b1, hb1, rfl⟩ := setColWith_get? _ _ _ i hb2
        rw [Row.getV_set_ne _ _ (by decide)]
        obtain ⟨a, ha, rfl⟩ := setColIdx_get? _ _ _ i hb1
        exact Row.getV_set_self a _ _
    · intro i r hri
      simp only [DataFrame.reorderFront, DataFrame.setColWith, List.get?_map] at hri
      cases hb : ((tv1.fillnaIfPresent "custom_product"
          (Value.str "unknown")).setColIdx "~id" fun i _ =>
          Value.str ("ticket_" ++ toString i)).rows.get? i with
      | none => rw [hb] at hri; simp at hri
      | some b =>
        rw [hb] at hri
        simp only [Option.map_some', Option.some.injEq] at hri
        subst hri
        obtain ⟨a, ha, rfl⟩ := setColIdx_get? _ _ _ i hb
        rw [selectRow_getV _ _ _ (by simp), Row.getV_set_ne _ _ (by decide)]
        exact Row.getV_set_self a _ _
    · intro v hv
      simp only [DataFrame.reorderFront, List.mem_map] at hv
      obtain ⟨w2, hw2, rfl⟩ := hv
      rw [selectRow_getV _ _ _ (by simp)]
      simp only [DataFrame.setColWith, List.mem_map] at hw2
      try simp only [List.mem_map] at hw2
      obtain ⟨w1, hw1, rfl⟩ := hw2
      rw [Row.getV_set_ne _ _ (by decide)]
      try simp only [List.mem_map] at hw1
      obtain ⟨w0, hw0, rfl⟩ := hw1
      rw [Row.getV_set_self]
      have hsub : w0 ∈ rsel.rows := dedupFirstAux_subset _ _ _ hw0
      rw [(selectE_ok e2).2] at hsub
      simp only [List.mem_map] at hsub
      obtain ⟨r0, hr0, rfl⟩ := hsub
      exact ⟨r0, hr0, by rw [selectRow_getV _ _ _ (by simp)]⟩
    · intro v hv
      simp only [DataFrame.reorderFront, List.mem_map] at hv
      obtain ⟨w2, hw2, rfl⟩ := hv
      rw [selectRow_getV _ _ _ (by simp)]
      simp only [DataFrame.setColWith, List.mem_map] at hw2
      try simp only [List.mem_map] at hw2
      obtain ⟨w1, hw1, rfl⟩ := hw2
      rw [Row.getV_set_ne _ _ (by decide)]
      try simp only [List.mem_map] at hw1
      obtain ⟨w0, hw0, rfl⟩ := hw1
      rw [Row.getV_set_self]
      have hsub : w0 ∈ usel.rows := dedupFirstAux_subset _ _ _ hw0
      rw [(selectE_ok e3).2] at hsub
      simp only [List.mem_map] at hsub
      obtain ⟨r0, hr0, rfl⟩ := hsub
      exact ⟨r0, hr0, by rw [selectRow_getV _ _ _ (by simp)]⟩
    · intro i r hri
      rw [(selectE_ok e8).2] at hri
      simp only [List.get?_map] at hri
      rw [setColFromColE_ok e7] at hri
      simp only [DataFrame.setColWith, List.get?_map] at hri
      cases hb : (re3.setColIdx "~to" fun i _ =>
          Value.str ("rating_" ++ toString i)).rows.get? i with
      | none => rw [hb] at hri; simp at hri
      | some b4 =>
        rw [hb] at hri
        simp only [Option.map_some', Option.some.injEq] at hri
        subst hri
        obtain ⟨b3, hb3, rfl⟩ := setColIdx_get? _ _ _ i hb
        rw [setColFromColE_ok e6] at hb3
        obtain ⟨b2, hb2, rfl⟩ := setColWith_get? _ _ _ i hb3
        obtain ⟨a, ha, rfl⟩ := setColIdx_get? _ _ _ i hb2
        obtain ⟨r0, hr0, hpres⟩ := astypeIntIfPresent_get? e4 i ha
        refine ⟨?_, ?_, r0, hr0, ?_⟩
        · rw [selectRow_getV _ _ _ (by simp), Row.getV_set_ne _ _ (by decide),
            Row.getV_set_ne _ _ (by decide), Row.getV_set_ne _ _ (by decide),
            Row.getV_set_ne _ _ (by decide)]
          exact Row.getV_set_self a _ _
        · rw [selectRow_getV _ _ _ (by simp), Row.getV_set_ne _ _ (by decide),
            Row.getV_set_ne _ _ (by decide), Row.getV_set_self]
        · rw [selectRow_getV _ _ _ (by simp), Row.getV_set_ne _ _ (by decide),
            Row.getV_set_ne _ _ (by decide), Row.getV_set_ne _ _ (by decide),
            Row.getV_set_self, Row.getV_set_ne _ _ (by decide),
            hpres "resolution_status" (by decide)]
    · intro i r hri
      rw [(selectE_ok e10).2] at hri
      simp only [DataFrame.setColWith, List.get?_map] at hri
      cases hb : (ue2.setColIdx "~to" fun i _ =>
          Value.str ("rating_" ++ toString i)).rows.get? i with
      | none => rw [hb] at hri; simp at hri
      | some b2 =>
        rw [hb] at hri
        simp only [Option.map_some', Option.some.injEq] at hri
        subst hri
        obtain ⟨b1, hb1, rfl⟩ := setColIdx_get? _ _ _ i hb
        rw [setColFromColE_ok e9] at hb1
        obtain ⟨b0, hb0, rfl⟩ := setColWith_get? _ _ _ i hb1
        obtain ⟨a, ha, rfl⟩ := setColIdx_get? _ _ _ i hb0
        refine ⟨?_, ?_, a, ha, ?_⟩
        · rw [selectRow_getV _ _ _ (by simp), Row.getV_set_ne _ _ (by decide),
            Row.getV_set_ne _ _ (by decide), Row.getV_set_ne _ _ (by decide)]
          exact Row.getV_set_self a _ _
        · rw [selectRow_getV _ _ _ (by simp), Row.getV_set_ne _ _ (by decide),
            Row.getV_set_self]
        · rw [selectRow_getV _ _ _ (by simp), Row.getV_set_ne _ _ (by decide),
            Row.getV_set_ne _ _ (by decide), Row.getV_set_self,
            Row.getV_set_ne _ _ (by decide)]
    · intro i r hri
      rw [(selectE_ok e11).2] at hri
      simp only [DataFrame.setColWith, List.get?_map] at hri
      cases hb : (((df.setColIdx "~id" fun i _ =>
          Value.str ("edge_ticket_rating_" ++ toString i)).setColIdx "~from" fun i _ =>
          Value.str ("ticket_" ++ toString i)).setColIdx "~to" fun i _ =>
          Value.str ("rating_" ++ toString i)).rows.get? i with
      | none => rw [hb] at hri; simp at hri
      | some b3 =>
        rw [hb] at hri
        simp only [Option.map_some', Option.some.injEq] at hri
        subst hri
        obtain ⟨b2, hb2, rfl⟩ := setColIdx_get? _ _ _ i hb
        obtain ⟨b1, hb1, rfl⟩ := setColIdx_get? _ _ _ i hb2
        obtain ⟨a, ha, rfl⟩ := setColIdx_get? _ _ _ i hb1
        refine ⟨?_, ?_, ?_⟩
        · rw [selectRow_getV _ _ _ (by simp), Row.getV_set_ne _ _ (by decide),
            Row.getV_set_ne _ _ (by decide), Row.getV_set_ne _ _ (by decide)]
          exact Row.getV_set_self a _ _
        · rw [selectRow_getV _ _ _ (by simp), Row.getV_set_ne _ _ (by decide),
            Row.getV_set_ne _ _ (by decide), Row.getV_set_self]
        · rw [selectRow_getV _ _ _ (by simp), Row.getV_set_ne _ _ (by decide),
            Row.getV_set_self]
  · intro df vs hid hok i r0 hr
    exact create_bulk_vertices_id hok hid i r0 hr

/-- C8 counterexample: running `create_neptune_bulk_edges` on the same
one-ticket table with two different `uuid.uuid4()` streams succeeds both
times but yields different edge tables, because the per-ticket
`has_factor` edge ids embed the freshly drawn UUID
(src/05_create_neptune_gremlin_bulk.py, lines 127 and 135); the exported
ids are therefore not deterministic functions of the input table. -/
theorem bulk_edges_uuid_nondeterminism_cex :
    create_neptune_bulk_edges (fun _ => "a") ⟨[], [[]]⟩ =
      .ok [[("~id", .str "ea"), ("~from", .str "ticket:ticket_0"),
            ("~to", .str "factor:resolution"), ("~label", .str "has_factor"),
            ("value", .num 0)],
           [("~id", .str "ea"), ("~from", .str "ticket:ticket_0"),
            ("~to", .str "factor:rating"), ("~label", .str "has_factor"),
            ("value", .num 0)]] ∧
    create_neptune_bulk_edges (fun _ => "b") ⟨[], [[]]⟩ =
      .ok [[("~id", .str "eb"), ("~from", .str "ticket:ticket_0"),
            ("~to", .str "factor:resolution"), ("~label", .str "has_factor"),
            ("value", .num 0)],
           [("~id", .str "eb"), ("~from", .str "ticket:ticket_0"),
            ("~to", .str "factor:rating"), ("~label", .str "has_factor"),
            ("value", .num 0)]] ∧
    ([[("~id", Value.str "ea"), ("~from", Value.str "ticket:ticket_0"),
       ("~to", Value.str "factor:resolution"), ("~label", Value.str "has_factor"),
       ("value", Value.num 0)],
      [("~id", Value.str "ea"), ("~from", Value.str "ticket:ticket_0"),
       ("~to", Value.str "factor:rating"), ("~label", Value.str "has_factor"),
       ("value", Value.num 0)]] : List Row) ≠
    [[("~id", Value.str "eb"), ("~from", Value.str "ticket:ticket_0"),
      ("~to", Value.str "factor:resolution"), ("~label", Value.str "has_factor"),
      ("value", Value.num 0)],
     [("~id", Value.str "eb"), ("~from", Value.str "ticket:ticket_0"),
      ("~to", Value.str "factor:rating"), ("~label", Value.str "has_factor"),
      ("value", Value.num 0)]] :=
  ⟨rfl, rfl, by decide⟩

theorem export_id_determinism_amended_witness :
    (∃ out, convert_to_neptune_gremlin_csv
        ⟨["ticket_id", "resolution_status", "resolution_numeric",
          "understanding_status", "understanding_numeric", "resolution_effect"],
         [[("ticket_id", .str "t1"), ("resolution_status", .str "resolved"),
           ("resolution_numeric", .num 1), ("understanding_status", .str "understood"),
           ("understanding_numeric", .num 1), ("resolution_effect", .num (1 / 2))]]⟩ =
        .ok out ∧
      ∀ r, out.rating_vertices.rows.get? 0 = some r →
        r.getV "~id" = .str ("rating_" ++ toString 0)) ∧
    (∃ vs, create_neptune_bulk_vertices
        ⟨["ticket_id", "resolution_status", "resolution_numeric",
          "understanding_status", "understanding_numeric", "resolution_effect"],
         [[("ticket_id", .str "t1"), ("resolution_status", .str "resolved"),
           ("resolution_numeric", .num 1), ("understanding_status", .str "understood"),
           ("understanding_numeric", .num 1), ("resolution_effect", .num (1 / 2))]]⟩ =
        .ok vs ∧
      ∃ v, vs.get? 0 = some v ∧ v.getV "~id" = .str ("ticket:" ++
        pyStr (Row.getD
          [("ticket_id", .str "t1"), ("resolution_status", .str "resolved"),
           ("resolution_numeric", .num 1), ("understanding_status", .str "understood"),
           ("understanding_numeric", .num 1), ("resolution_effect", .num (1 / 2))]
          "ticket_id" (.str ("ticket_" ++ toString 0))))) := by
  constructor
  · cases hok : convert_to_neptune_gremlin_csv
        ⟨["ticket_id", "resolution_status", "resolution_numeric",
          "understanding_status", "understanding_numeric", "resolution_effect"],
         [[("ticket_id", .str "t1"), ("resolution_status", .str "resolved"),
           ("resolution_numeric", .num 1), ("understanding_status", .str "understood"),
           ("understanding_numeric", .num 1), ("resolution_effect", .num (1 / 2))]]⟩ with
    | error e =>
        have hik : (convert_to_neptune_gremlin_csv
            ⟨["ticket_id", "resolution_status", "resolution_numeric",
              "understanding_status", "understanding_numeric", "resolution_effect"],
             [[("ticket_id", .str "t1"), ("resolution_status", .str "resolved"),
               ("resolution_numeric", .num 1), ("understanding_status", .str "understood"),
               ("understanding_numeric", .num 1),
               ("resolution_effect", .num (1 / 2))]]⟩).isOk = true := by decide
        rw [hok] at hik
        simp [Except.isOk, Except.toBool] at hik
    | ok out =>
        exact ⟨out, rfl, fun r hr =>
          (export_id_determinism_amended.1 _ out hok).1 0 r hr⟩
  · cases hvs : create_neptune_bulk_vertices
        ⟨["ticket_id", "resolution_status", "resolution_numeric",
          "understanding_status", "understanding_numeric", "resolution_effect"],
         [[("ticket_id", .str "t1"), ("resolution_status", .str "resolved"),
           ("resolution_numeric", .num 1), ("understanding_status", .str "understood"),
           ("understanding_numeric", .num 1), ("resolution_effect", .num (1 / 2))]]⟩ with
    | error e =>
        have hik : (create_neptune_bulk_vertices
            ⟨["ticket_id", "resolution_status", "resolution_numeric",
              "understanding_status", "understanding_numeric", "resolution_effect"],
             [[("ticket_id", .str "t1"), ("resolution_status", .str "resolved"),
               ("resolution_numeric", .num 1), ("understanding_status", .str "understood"),
               ("understanding_numeric", .num 1),
               ("resolution_effect", .num (1 / 2))]]⟩).isOk = true := by decide
        rw [hvs] at hik
        simp [Except.isOk, Except.toBool] at hik
    | ok vs =>
        exact ⟨vs, rfl,
          export_id_determinism_amended.2 _ vs (by decide) hvs 0 _ rfl⟩
